import Mathlib

/-!
# Arena tournament platform: client-side handlers

A shallow embedding of the event handlers of the React client
(`src/pages/GameMode.jsx`, `src/pages/ModeratorDashboard.jsx`,
`src/pages/CreatorDashboard.jsx`, `src/pages/Layout.jsx`, `src/pages/Profile.jsx`,
`src/components/admin/TournamentManagement.jsx`,
`src/components/admin/GameManagement.jsx`,
`src/components/admin/UserManagement.jsx`).

The backend-as-a-service is not part of the repository.  A handler is
therefore run against an arbitrary environment `Remote` that answers the
n-th remote call of the run either with a value or with a rejection, and the
run records every call it issues, in order, together with its outcome.
`await` is sequential by construction: the answer of a call is obtained
before the next call is issued.

JavaScript numbers are modelled by `Int`; a missing (`undefined`/`null`)
field is `none`; a thrown error is its `message`.
-/

namespace Arena

/-! ## Records exchanged with the backend -/

/-- The object returned by `User.me()`, with the fields the handlers read. -/
structure UserRecord where
  id : String
  full_name : String
  email : String
  wallet_balance : Option Int
  deriving DecidableEq, Repr

/-- A `TournamentTemplate` or `Tournament` record as held in
`selectedTemplate` / `selectedTournament`. -/
structure Item where
  id : String
  entry_fee : Option Int
  name : Option String
  title : Option String
  deriving DecidableEq, Repr

/-- The object returned by `Tournament.get(id)`. -/
structure TournamentRecord where
  current_participants : Option Int
  deriving DecidableEq, Repr

/-- The payload built in step 4 of `confirmRegistration`. -/
structure ParticipationPayload where
  player_id : String
  player_name : String
  player_email : String
  registration_date : String
  status : String
  in_game_name : String
  in_game_uid : Option String
  used_referral_code : Option String
  template_id : Option String
  tournament_id : Option String
  deriving DecidableEq, Repr

/-- A stored `Participation`, with the fields read by the client. -/
structure ParticipationRecord where
  player_id : String
  template_id : Option String
  tournament_id : Option String
  registration_date : String
  deriving DecidableEq, Repr

/-- A stored `ReferralCode`. -/
structure ReferralCodeRecord where
  creator_id : String
  code : String
  deriving DecidableEq, Repr

/-- An element of `Tournament.list()`, with the field `createTournament` reads. -/
structure TournamentSummary where
  id : String
  tournament_id_custom : Option String
  deriving DecidableEq, Repr

/-- A `GameMode` record held in the `gameModes` state. -/
structure GameModeRecord where
  id : String
  game_id : String
  deriving DecidableEq, Repr

/-- A `Game` record held in the `games` state. -/
structure GameRecord where
  id : String
  game_code : Option String
  deriving DecidableEq, Repr

/-- The payload of `User.update` built by `handleUpdateUser`. -/
structure UserUpdatePayload where
  app_role : String
  assigned_games : List String
  assigned_games_creator : List String
  deriving DecidableEq, Repr

/-- A stored `Notification`. -/
structure NotificationRecord where
  id : String
  is_read : Bool
  deriving DecidableEq, Repr

/-! ## Remote calls -/

/-- The remote calls issued by the modelled handlers, with their arguments. -/
inductive Call where
  | User_me
  | User_updateMyUserData (wallet_balance : Int)
  | Transaction_create (user_id : String) (amount : Int) (type : String)
      (description : String) (related_tournament_id : Option String)
  | Transaction_filter (user_id : String) (type : String)
  | Participation_filter (player_id : String) (template_id : String)
  | Participation_filterByCode (used_referral_code : String)
  | Participation_create (payload : ParticipationPayload)
  | Tournament_get (id : String)
  | Tournament_update (id : String) (current_participants : Int)
  | Tournament_filterInRegion (ids : List (Option String)) (region_id : String)
  | Tournament_delete (id : String)
  | Tournament_list
  | Tournament_create (tournament_id_custom : String) (game_mode_id : String)
      (region_id : String) (tournament_type : String) (status : String)
  | processTournamentQueue (template_id : String)
  | processWinnerSelection (tournament_id : String) (winner_id : String)
  | ReferralCode_filter (code : String)
  | ReferralCode_create (creator_id : String) (code : String)
  | Notification_filter (user_id : String) (sort : String) (limit : Nat)
  | Notification_update (id : String) (is_read : Bool)
  | Notification_create (user_id : String) (title : String) (message : String)
  | Game_list
  | Game_create (game_code : String) (region_id : String)
  | User_update (id : String) (payload : UserUpdatePayload)
  | Game_delete (id : String)
  | User_delete (id : String)
  | Region_delete (id : String)
  | GameMode_delete (id : String)
  | TournamentTemplate_delete (id : String)
  deriving DecidableEq, Repr

/-- The type of the value a call resolves to. -/
def Call.Resp : Call → Type
  | .User_me => UserRecord
  | .Participation_filter _ _ => List ParticipationRecord
  | .Participation_filterByCode _ => List ParticipationRecord
  | .Tournament_get _ => TournamentRecord
  | .Tournament_filterInRegion _ _ => List String
  | .Transaction_filter _ _ => List Int
  | .ReferralCode_filter _ => List ReferralCodeRecord
  | .ReferralCode_create _ _ => ReferralCodeRecord
  | .Notification_filter _ _ _ => List NotificationRecord
  | .Tournament_list => List TournamentSummary
  | .Tournament_create _ _ _ _ _ => Unit
  | .User_updateMyUserData _ => Unit
  | .Transaction_create _ _ _ _ _ => Unit
  | .Participation_create _ => Unit
  | .Tournament_update _ _ => Unit
  | .Tournament_delete _ => Unit
  | .processTournamentQueue _ => Unit
  | .processWinnerSelection _ _ => Unit
  | .Notification_update _ _ => Unit
  | .Notification_create _ _ _ => Unit
  | .Game_list => List GameRecord
  | .Game_create _ _ => Unit
  | .User_update _ _ => Unit
  | .Game_delete _ => Unit
  | .User_delete _ => Unit
  | .Region_delete _ => Unit
  | .GameMode_delete _ => Unit
  | .TournamentTemplate_delete _ => Unit

/-- Whether a call changes remote state (create / update / delete / named
procedure) rather than only reading it. -/
def Call.isWrite : Call → Bool
  | .User_me => false
  | .Participation_filter _ _ => false
  | .Participation_filterByCode _ => false
  | .Tournament_get _ => false
  | .Tournament_filterInRegion _ _ => false
  | .Transaction_filter _ _ => false
  | .ReferralCode_filter _ => false
  | .Notification_filter _ _ _ => false
  | .Tournament_list => false
  | .Game_list => false
  | _ => true

/-- The backend as seen by one handler run: the answer to the call issued
when `n` calls have been issued before it. -/
def Remote : Type := (n : Nat) → (c : Call) → Except String c.Resp

/-! ## Handler runs -/

/-- What a run has done so far: the component state written through the
React setters, the remote calls issued (with `true` when the call resolved
and `false` when it rejected), and the `console.error` and `alert` output. -/
structure Run (σ : Type) where
  ui : σ
  trace : List (Call × Bool)
  console : List String
  alerts : List String

/-- An asynchronous handler body: given the backend and the run so far it
either completes with a value or throws, and extends the run. -/
def H (σ α : Type) : Type := Remote → Run σ → Except String α × Run σ

namespace H

variable {σ α β : Type}

/-- Completes with `a`. -/
def ret (a : α) : H σ α := fun _ s => (.ok a, s)

/-- Sequencing; a throw skips the continuation. -/
def bind (x : H σ α) (f : α → H σ β) : H σ β := fun r s =>
  match x r s with
  | (.ok a, s1) => f a r s1
  | (.error e, s1) => (.error e, s1)

instance : Monad (H σ) where
  pure := ret
  bind := bind

/-- The statement `throw new Error(msg)` (also a `TypeError` raised by a
property access on `null`). -/
def throw (msg : String) : H σ α := fun _ s => (.error msg, s)

/-- A synchronous computation that returns a value or throws. -/
def ofExcept (x : Except String α) : H σ α := fun _ s => (x, s)

/-- The expression `await <call>`. -/
def await (c : Call) : H σ c.Resp := fun r s =>
  match r s.trace.length c with
  | .ok a => (.ok a, { s with trace := s.trace ++ [(c, true)] })
  | .error e => (.error e, { s with trace := s.trace ++ [(c, false)] })

/-- A React state setter. -/
def set (f : σ → σ) : H σ Unit := fun _ s => (.ok (), { s with ui := f s.ui })

/-- The call `console.error(label, error)`. -/
def consoleError (msg : String) : H σ Unit := fun _ s =>
  (.ok (), { s with console := s.console ++ [msg] })

/-- The call `alert(msg)`. -/
def alert (msg : String) : H σ Unit := fun _ s =>
  (.ok (), { s with alerts := s.alerts ++ [msg] })

/-- The statement `try { body } catch (error) { handler(error.message) }`. -/
def tryCatch (body : H σ α) (handler : String → H σ α) : H σ α := fun r s =>
  match body r s with
  | (.ok a, s1) => (.ok a, s1)
  | (.error e, s1) => handler e r s1

/-- The statement `try { body } finally { fin }`. -/
def tryFinally (body : H σ α) (fin : H σ Unit) : H σ α := fun r s =>
  match body r s with
  | (res, s1) =>
    match fin r s1 with
    | (.ok _, s2) => (res, s2)
    | (.error e, s2) => (.error e, s2)

/-- A call of an async function without `await`: its calls are issued, its
rejection is not observed by the caller. -/
def detached (x : H σ α) : H σ Unit := fun r s =>
  match x r s with
  | (_, s1) => (.ok (), s1)

/-- The expression `await Promise.all(cs.map(call))` for calls whose results
are discarded: every call is issued, and the whole rejects when one of them
does (with the message of the first rejecting call in list order). -/
def awaitAll : List Call → H σ Unit
  | [] => fun _ s => (.ok (), s)
  | c :: cs => fun r s =>
    match await c r s with
    | (.ok _, s1) => awaitAll cs r s1
    | (.error e, s1) =>
      match awaitAll cs r s1 with
      | (_, s2) => (.error e, s2)

/-- Runs a handler from the component state `ui` with nothing issued yet. -/
def run (x : H σ α) (r : Remote) (ui : σ) : Except String α × Run σ :=
  x r { ui := ui, trace := [], console := [], alerts := [] }

end H

/-- The calls of a run, without their outcomes. -/
def calls {σ : Type} (s : Run σ) : List Call := s.trace.map Prod.fst

/-- The remote writes of a run, in the order issued. -/
def writes {σ : Type} (s : Run σ) : List Call := (calls s).filter Call.isWrite

/-- The JavaScript expression `x || d` on an optional number: `undefined`,
`null` and `0` are falsy. -/
def orZero (x : Option Int) : Int :=
  match x with
  | some v => v
  | none => 0

/-- The JavaScript expression `a || b` on optional strings, rendered inside a
template literal: the empty string and `undefined` are falsy, and an
`undefined` result prints as `undefined`. -/
def orElseStr (a b : Option String) : String :=
  match a with
  | some x => if x ≠ "" then x else (match b with | some y => y | none => "undefined")
  | none => (match b with | some y => y | none => "undefined")

/-- The JavaScript expression `s || null` on a string. -/
def orNull (s : String) : Option String := if s ≠ "" then some s else none

/-! ## `GameMode.jsx` -/

/-- The form state `registrationData`. -/
structure RegistrationData where
  in_game_name : String
  in_game_uid : String
  referral_code : String
  deriving DecidableEq, Repr

/-- The state of `GameModePage` that `confirmRegistration` reads or writes.
`loadDataCalls` counts the un-awaited `loadData()` refreshes started. -/
structure GameModePageState where
  selectedTemplate : Option Item
  selectedTournament : Option Item
  registrationData : RegistrationData
  currencySymbol : String
  isRegistering : Bool
  registrationError : String
  showConfirmDialog : Bool
  loadDataCalls : Nat
  deriving DecidableEq, Repr

/-- The template literal of the insufficient-balance message. -/
def insufficientMessage (currencySymbol : String) (entryFee currentBalance : Int) : String :=
  "Insufficient wallet balance. Required: " ++ currencySymbol ++ toString entryFee ++
    ". Current: " ++ currencySymbol ++ toString currentBalance

/-- The body of the `try` block of `confirmRegistration`, lines 172-256.
`c` is the state captured by the closure, `now` the value of
`new Date().toISOString()`. -/
def confirmRegistrationBody (c : GameModePageState) (now : String) :
    H GameModePageState Unit :=
  -- const item = selectedTemplate || selectedTournament;
  match (c.selectedTemplate <|> c.selectedTournament) with
  | none =>
    -- item.entry_fee on null
    H.throw "Cannot read properties of null (reading 'entry_fee')"
  | some item =>
    let entryFee := orZero item.entry_fee
    if c.registrationData.in_game_name = "" then do
      H.set (fun s => { s with registrationError := "In-Game Name is required." })
      H.set (fun s => { s with isRegistering := false })
    else do
      let latestUser ← H.await .User_me
      let currentBalance := orZero latestUser.wallet_balance
      if currentBalance < entryFee then do
        H.set (fun s => { s with
          registrationError := insufficientMessage c.currencySymbol entryFee currentBalance })
        H.set (fun s => { s with isRegistering := false })
      else do
        if c.selectedTemplate.isSome then do
          let _existingParticipation ← H.await (.Participation_filter latestUser.id item.id)
          pure ()
        else pure ()
        if entryFee > 0 then do
          let newBalance := currentBalance - entryFee
          H.await (.User_updateMyUserData newBalance)
          H.await (.Transaction_create latestUser.id (-entryFee) "entry_fee"
            ("Entry fee for " ++ orElseStr item.name item.title)
            (if c.selectedTournament.isSome then some item.id else none))
        else pure ()
        let participationPayload : ParticipationPayload :=
          { player_id := latestUser.id
            player_name := latestUser.full_name
            player_email := latestUser.email
            registration_date := now
            status := "registered"
            in_game_name := c.registrationData.in_game_name
            in_game_uid := orNull c.registrationData.in_game_uid
            used_referral_code := orNull c.registrationData.referral_code
            template_id := none
            tournament_id := none }
        let participationPayload ←
          if c.selectedTemplate.isSome then
            pure { participationPayload with template_id := some item.id }
          else do
            let tournament ← H.await (.Tournament_get item.id)
            H.await (.Tournament_update item.id (orZero tournament.current_participants + 1))
            pure { participationPayload with tournament_id := some item.id }
        H.await (.Participation_create participationPayload)
        if c.selectedTemplate.isSome then
          H.await (.processTournamentQueue item.id)
        else pure ()
        H.set (fun s => { s with showConfirmDialog := false })
        H.set (fun s => { s with loadDataCalls := s.loadDataCalls + 1 })

/-- The handler `confirmRegistration`, lines 167-265. -/
def confirmRegistration (c : GameModePageState) (now : String) :
    H GameModePageState Unit := do
  H.set (fun s => { s with isRegistering := true })
  H.set (fun s => { s with registrationError := "" })
  H.tryFinally
    (H.tryCatch (confirmRegistrationBody c now) (fun message => do
      H.consoleError ("Registration failed: " ++ message)
      H.set (fun s => { s with registrationError :=
        if message ≠ "" then message else "An unexpected error occurred. Please try again." })))
    (H.set (fun s => { s with isRegistering := false }))

/-! ## `ModeratorDashboard.jsx` -/

/-- The state of `ModeratorDashboard` that `handleConfirmWinner` reads or
writes.  `scheduled` lists the sections that pending
`setTimeout(() => setActiveSection(..), 0)` callbacks will activate. -/
structure ModeratorDashboardState where
  selectedTournament : Option Item
  selectedWinner : String
  showWinnerDialog : Bool
  activeSection : String
  scheduled : List String
  deriving DecidableEq, Repr

/-- The handler `handleConfirmWinner`, lines 304-324. -/
def handleConfirmWinner (c : ModeratorDashboardState) : H ModeratorDashboardState Unit :=
  match c.selectedTournament with
  | none => H.alert "Please select a winner."
  | some selectedTournament =>
    if c.selectedWinner = "" then H.alert "Please select a winner."
    else
      H.tryCatch
        (do
          H.await (.processWinnerSelection selectedTournament.id c.selectedWinner)
          H.set (fun s => { s with showWinnerDialog := false })
          H.set (fun s => { s with selectedWinner := "" })
          H.set (fun s => { s with selectedTournament := none })
          H.set (fun s => { s with activeSection := "" })
          H.set (fun s => { s with scheduled := s.scheduled ++ ["tournaments"] }))
        (fun message => do
          H.consoleError ("Error selecting winner: " ++ message)
          H.alert "Failed to process winner. Please try again.")

/-! ## `CreatorDashboard.jsx` -/

/-- The `stats` state of `CreatorDashboard`. -/
structure CreatorStats where
  referrals : Nat
  earnings : Int
  chartData : List (String × Nat)
  deriving DecidableEq, Repr

/-- The state of `CreatorDashboard` that `handleCreateCode` and `loadData`
read or write; `region` holds `region.id`. -/
structure CreatorDashboardState where
  user : Option UserRecord
  region : Option String
  newCode : String
  error : String
  referralCode : Option ReferralCodeRecord
  stats : CreatorStats
  transactions : List Int
  deriving DecidableEq, Repr

/-- The character class `[a-zA-Z0-9]`. -/
def isAlnumClass (ch : Char) : Bool :=
  ('a'.toNat ≤ ch.toNat && ch.toNat ≤ 'z'.toNat) ||
  ('A'.toNat ≤ ch.toNat && ch.toNat ≤ 'Z'.toNat) ||
  ('0'.toNat ≤ ch.toNat && ch.toNat ≤ '9'.toNat)

/-- The test `/^[a-zA-Z0-9]+$/.test(s)`: one or more characters, all of the
class.  A character outside the basic plane is two surrogate code units for
JavaScript, neither of which is in the class. -/
def alnumRegexTest (s : String) : Bool :=
  !s.data.isEmpty && s.data.all isAlnumClass

/-- The property `s.length` of a JavaScript string: the number of UTF-16
code units. -/
def jsLength (s : String) : Nat :=
  (s.data.map (fun ch => if ch.toNat < 65536 then 1 else 2)).sum

/-- The UTF-16 code units of a string, the values `s.charCodeAt(i)` for
`i < s.length`: a character outside the basic plane is a surrogate pair. -/
def utf16Units (s : String) : List Nat :=
  s.data.flatMap (fun ch =>
    if ch.toNat < 65536 then [ch.toNat]
    else [55296 + (ch.toNat - 65536) / 1024, 56320 + (ch.toNat - 65536) % 1024])

/-- The guard of `handleCreateCode`, line 97:
`!newCode || newCode.length > 10 || !/^[a-zA-Z0-9]+$/.test(newCode)`. -/
def codeRejected (newCode : String) : Bool :=
  newCode = "" || decide (jsLength newCode > 10) || !alnumRegexTest newCode

/-- The body of the `try` block of `loadData(userData, creatorCode)` of
`CreatorDashboard`, lines 27-62.  The grouping of sign-ups by calendar day
(which formats dates and throws on an invalid one) is the parameter `chart`. -/
def CreatorDashboard.loadDataBody (c : CreatorDashboardState)
    (chart : List ParticipationRecord → Except String (List (String × Nat)))
    (userData : UserRecord) (creatorCode : ReferralCodeRecord) :
    H CreatorDashboardState Unit :=
  match c.region with
  | none => pure ()
  | some regionId => do
    let participations ← H.await (.Participation_filterByCode creatorCode.code)
    let tournamentIds := (participations.map (fun p => p.tournament_id)).eraseDups
    let tournamentsInRegion ← H.await (.Tournament_filterInRegion tournamentIds regionId)
    let regionFilteredParticipations := participations.filter (fun p =>
      match p.tournament_id with
      | some t => tournamentsInRegion.contains t
      | none => false)
    let userTransactions ← H.await (.Transaction_filter userData.id "prize_won")
    let totalEarnings := userTransactions.foldl (fun acc amount => acc + amount) 0
    let chartData ← H.ofExcept (chart regionFilteredParticipations)
    H.set (fun s => { s with stats :=
      { referrals := regionFilteredParticipations.length
        earnings := totalEarnings
        chartData := chartData } })
    H.set (fun s => { s with transactions := userTransactions.take 10 })

/-- The function `loadData(userData, creatorCode)` of `CreatorDashboard`,
lines 25-67. -/
def CreatorDashboard.loadData (c : CreatorDashboardState)
    (chart : List ParticipationRecord → Except String (List (String × Nat)))
    (userData : UserRecord) (creatorCode : ReferralCodeRecord) :
    H CreatorDashboardState Unit :=
  H.tryCatch (CreatorDashboard.loadDataBody c chart userData creatorCode)
    (fun message => H.consoleError ("Error loading creator data: " ++ message))

/-- The body of the `try` block of `handleCreateCode`, lines 102-114. -/
def handleCreateCodeBody (c : CreatorDashboardState)
    (chart : List ParticipationRecord → Except String (List (String × Nat))) :
    H CreatorDashboardState Unit := do
  let existing ← H.await (.ReferralCode_filter c.newCode)
  if existing.length > 0 then
    H.set (fun s => { s with error := "This code is already taken. Please choose another." })
  else
    match c.user with
    | none => H.throw "Cannot read properties of null (reading 'id')"
    | some user => do
      let created ← H.await (.ReferralCode_create user.id c.newCode)
      H.set (fun s => { s with referralCode := some created })
      H.set (fun s => { s with newCode := "" })
      if c.region.isSome then
        CreatorDashboard.loadData c chart user created
      else pure ()

/-- The handler `handleCreateCode`, lines 95-119. -/
def handleCreateCode (c : CreatorDashboardState)
    (chart : List ParticipationRecord → Except String (List (String × Nat))) :
    H CreatorDashboardState Unit := do
  H.set (fun s => { s with error := "" })
  if codeRejected c.newCode then
    H.set (fun s => { s with error := "Code must be 1-10 alphanumeric characters." })
  else
    H.tryCatch (handleCreateCodeBody c chart)
      (fun message => do
        H.set (fun s => { s with error := "Failed to create code. Please try again." })
        H.consoleError message)

/-! ## `Layout.jsx`: `NotificationsDropdown` -/

/-- The prop and state of `NotificationsDropdown`. -/
structure NotificationsState where
  user : Option UserRecord
  notifications : List NotificationRecord
  unreadCount : Nat
  deriving DecidableEq, Repr

/-- The function `loadNotifications`, lines 46-50. -/
def loadNotifications (c : NotificationsState) : H NotificationsState Unit :=
  match c.user with
  | none => H.throw "Cannot read properties of null (reading 'id')"
  | some user => do
    let notifs ← H.await (.Notification_filter user.id "-created_date" 10)
    H.set (fun s => { s with notifications := notifs })
    H.set (fun s => { s with unreadCount := (notifs.filter (fun n => !n.is_read)).length })

/-- The handler `handleMarkAsRead`, lines 52-55. -/
def handleMarkAsRead (c : NotificationsState) (id : String) : H NotificationsState Unit := do
  H.await (.Notification_update id true)
  H.detached (loadNotifications c)

/-- The handler `handleClearAll`, lines 57-61. -/
def handleClearAll (c : NotificationsState) : H NotificationsState Unit := do
  let unreadIds := (c.notifications.filter (fun n => !n.is_read)).map (fun n => n.id)
  H.awaitAll (unreadIds.map (fun id => Call.Notification_update id true))
  H.detached (loadNotifications c)

/-! ## `TournamentManagement.jsx` -/

/-- The state of `TournamentManagement` that `createTournament` and
`deleteTournament` read or write.  Of the form `newTournament` only
`game_mode_id` is kept: the other fields are copied into the payload (the
numeric ones through `parseFloat` / `parseInt`) and take no part in the
control flow.  `loadDataCalls` counts the un-awaited `loadData()` refreshes
started. -/
structure TournamentManagementState where
  gameModes : List GameModeRecord
  games : List GameRecord
  game_mode_id : String
  selectedRegion : String
  showCreateDialog : Bool
  selectedGame : String
  loadDataCalls : Nat
  deriving DecidableEq, Repr

/-- The test `/^\d+$/.test(s)` on the code units of `s`. -/
def digitsRegexTest (units : List Nat) : Bool :=
  !units.isEmpty && units.all (fun u => '0'.toNat ≤ u && u ≤ '9'.toNat)

/-- The value of `parseInt(s, 10)` on the code units of a string of decimal
digits (exact for values below 2^53). -/
def parseIntDigits (units : List Nat) : Nat :=
  units.foldl (fun n u => 10 * n + (u - '0'.toNat)) 0

/-- The callback of the second `map` of `createTournament`, lines 104-107:
`id.slice(3)`, which drops three code units, parsed when it is all digits,
else 0. -/
def numericSuffix (id : String) : Nat :=
  let numPart := (utf16Units id).drop 3
  if digitsRegexTest numPart then parseIntDigits numPart else 0

/-- The constant `lastId` of `createTournament`, lines 101-108. -/
def lastId (allTournaments : List TournamentSummary) : Nat :=
  let ids := (allTournaments.map (fun t => t.tournament_id_custom)).filterMap
    (fun x => match x with
      | some s => if s ≠ "" then some s else none
      | none => none)
  ((ids.map numericSuffix).insertionSort (fun a b => b ≤ a)).head?.getD 0

/-- The expression `s.padStart(7, '0')`. -/
def padStart7 (s : String) : String :=
  String.mk (List.replicate (7 - s.length) '0') ++ s

/-- The template literal of line 114. -/
def customId (gameCode : String) (last : Nat) : String :=
  gameCode ++ padStart7 (toString (last + 1))

/-- The constant `gameCode` of `createTournament`, lines 110-112.  The
callback `g => g.id === mode.game_id` dereferences `mode`, so an unknown game
mode throws as soon as `games` has an element to test. -/
def gameCodeOf (gameModes : List GameModeRecord) (games : List GameRecord)
    (game_mode_id : String) : Except String String :=
  match gameModes.find? (fun m => m.id = game_mode_id) with
  | none =>
    if games.isEmpty then .ok "000"
    else .error "Cannot read properties of undefined (reading 'game_id')"
  | some mode =>
    match games.find? (fun g => g.id = mode.game_id) with
    | some g => (match g.game_code with | some code => .ok code | none => .ok "undefined")
    | none => .ok "000"

/-- The body of the `try` block of `createTournament`, lines 99-144. -/
def createTournamentBody (c : TournamentManagementState) :
    H TournamentManagementState Unit := do
  let allTournaments ← H.await .Tournament_list
  let last := lastId allTournaments
  let gameCode ← H.ofExcept (gameCodeOf c.gameModes c.games c.game_mode_id)
  H.await (.Tournament_create (customId gameCode last) c.game_mode_id c.selectedRegion
    "single_elimination" "registration_open")
  H.set (fun s => { s with showCreateDialog := false })
  H.set (fun s => { s with game_mode_id := "" })
  H.set (fun s => { s with selectedGame := "" })
  H.set (fun s => { s with loadDataCalls := s.loadDataCalls + 1 })

/-- The handler `createTournament`, lines 97-148. -/
def createTournament (c : TournamentManagementState) : H TournamentManagementState Unit :=
  H.tryCatch (createTournamentBody c)
    (fun message => H.consoleError ("Error creating tournament: " ++ message))

/-- The handler `deleteTournament`, lines 150-155; `confirmed` is the answer
to the `confirm(..)` dialog. -/
def deleteTournament (id : String) (confirmed : Bool) : H TournamentManagementState Unit :=
  if confirmed then do
    H.await (.Tournament_delete id)
    H.set (fun s => { s with loadDataCalls := s.loadDataCalls + 1 })
  else pure ()

/-! ## `GameManagement.jsx` -/

/-- The state of `GameManagement` that `generateAndSetUniqueGameCode` and
`createGame` read or write.  Of the form `newGame` only `game_code` is kept:
the other fields are copied into the payload of `Game.create` and take no
part in the control flow.  `loadDataCalls` counts the un-awaited `loadData()`
refreshes started. -/
structure GameManagementState where
  game_code : String
  selectedRegion : String
  showCreateDialog : Bool
  loadDataCalls : Nat
  deriving DecidableEq, Repr

/-- The expression `s.padStart(3, '0')` on a string of decimal digits. -/
def padStart3 (s : String) : String :=
  String.mk (List.replicate (3 - s.length) '0') ++ s

/-- The constant `existingCodes` of line 75:
`allGames.map(g => g.game_code).filter(Boolean)`. -/
def existingCodes (allGames : List GameRecord) : List String :=
  (allGames.map (fun g => g.game_code)).filterMap
    (fun x => match x with
      | some s => if s ≠ "" then some s else none
      | none => none)

/-- The loop of lines 77-84: the first `i` from 101 to 999 whose code
`i.toString().padStart(3, '0')` is not included in `existingCodes`; the
`throw` after the loop when there is none. -/
def firstFreeCode (codes : List String) : Except String String :=
  match ((List.range' 101 899).map (fun i => padStart3 (toString i))).find?
      (fun code => !codes.contains code) with
  | some code => .ok code
  | none => .error "No available game codes"

/-- The body of the `try` block of `generateAndSetUniqueGameCode`, lines
74-84. -/
def generateAndSetUniqueGameCodeBody : H GameManagementState Unit := do
  let allGames ← H.await .Game_list
  let code ← H.ofExcept (firstFreeCode (existingCodes allGames))
  H.set (fun s => { s with game_code := code })

/-- The function `generateAndSetUniqueGameCode`, lines 72-90. -/
def generateAndSetUniqueGameCode : H GameManagementState Unit :=
  H.tryCatch generateAndSetUniqueGameCodeBody
    (fun message => do
      H.consoleError ("Error generating game code: " ++ message)
      H.alert "Failed to generate a unique game code. Please try again."
      H.set (fun s => { s with game_code := "" }))

/-- The handler `createGame`, lines 126-158. -/
def createGame (c : GameManagementState) : H GameManagementState Unit :=
  H.tryCatch
    (if c.game_code = "" then
      H.alert "A unique game code is required. Please try opening the dialog again."
    else do
      H.await (.Game_create c.game_code c.selectedRegion)
      H.set (fun s => { s with showCreateDialog := false })
      H.set (fun s => { s with game_code := "" })
      H.set (fun s => { s with loadDataCalls := s.loadDataCalls + 1 }))
    (fun message => do
      H.consoleError ("Error creating game: " ++ message)
      H.alert "Failed to create game. Please try again.")

/-! ## `UserManagement.jsx`: `handleUpdateUser` -/

/-- The form state `formData` of the edit dialog; the `None` item of the game
select stores `null`. -/
structure RoleForm where
  app_role : String
  assigned_game_id : Option String
  deriving DecidableEq, Repr

/-- The state of `UserManagement` that `handleUpdateUser` reads or writes;
`editingUser` holds `editingUser.id`.  `loadDataCalls` counts the un-awaited
`loadData()` refreshes started. -/
structure UserManagementState where
  editingUser : Option String
  formData : RoleForm
  showEditDialog : Bool
  loadDataCalls : Nat
  deriving DecidableEq, Repr

/-- The expression `formData.assigned_game_id ? [formData.assigned_game_id] : []`. -/
def assignedList (assigned_game_id : Option String) : List String :=
  match assigned_game_id with
  | some id => if id ≠ "" then [id] else []
  | none => []

/-- The object `payload` of `handleUpdateUser`, lines 108-119. -/
def updatePayload (formData : RoleForm) : UserUpdatePayload :=
  if formData.app_role = "moderator" then
    { app_role := formData.app_role
      assigned_games := assignedList formData.assigned_game_id
      assigned_games_creator := [] }
  else if formData.app_role = "creator" then
    { app_role := formData.app_role
      assigned_games_creator := assignedList formData.assigned_game_id
      assigned_games := [] }
  else
    { app_role := formData.app_role
      assigned_games := []
      assigned_games_creator := [] }

/-- The handler `handleUpdateUser`, lines 104-136. -/
def handleUpdateUser (c : UserManagementState) : H UserManagementState Unit :=
  match c.editingUser with
  | none => pure ()
  | some editingUserId =>
    H.tryCatch
      (do
        let payload := updatePayload c.formData
        H.await (.User_update editingUserId payload)
        H.await (.Notification_create editingUserId "Your Role Has Been Updated"
          ("An administrator has changed your role to: " ++ c.formData.app_role ++ "."))
        H.set (fun s => { s with showEditDialog := false })
        H.set (fun s => { s with editingUser := none })
        H.set (fun s => { s with loadDataCalls := s.loadDataCalls + 1 }))
      (fun message => do
        H.consoleError ("Error updating user role: " ++ message)
        H.alert ("Failed to update user role. Your plan may not support this feature " ++
          "or there was a server error."))

/-! ## Delete handlers of the admin components -/

/-- The handler `deleteGame` of `GameManagement.jsx`, lines 160-169;
`confirmed` is the answer to the `confirm(..)` dialog. -/
def deleteGame (id : String) (confirmed : Bool) : H GameManagementState Unit :=
  if confirmed then
    H.tryCatch
      (do
        H.await (.Game_delete id)
        H.set (fun s => { s with loadDataCalls := s.loadDataCalls + 1 }))
      (fun message => H.consoleError ("Error deleting game: " ++ message))
  else pure ()

/-- The handler `handleDeleteUser` of `UserManagement.jsx`, lines 138-149. -/
def handleDeleteUser (userId : String) (confirmed : Bool) : H UserManagementState Unit :=
  if confirmed then
    H.tryCatch
      (do
        H.await (.User_delete userId)
        H.set (fun s => { s with loadDataCalls := s.loadDataCalls + 1 }))
      (fun message => do
        H.consoleError ("Error deleting user: " ++ message)
        H.alert "Failed to delete user. There was a server error.")
  else pure ()

/-- The state of a list component as far as its delete handler writes it: the
number of un-awaited refreshes (`loadRegions()`, `loadGameModes()`,
`loadData()`) started. -/
structure ListState where
  refreshCalls : Nat
  deriving DecidableEq, Repr

/-- The handler `handleDelete` of `RegionManagement.jsx`, lines 67-77. -/
def RegionManagement.handleDelete (id : String) (confirmed : Bool) : H ListState Unit :=
  if confirmed then
    H.tryCatch
      (do
        H.await (.Region_delete id)
        H.set (fun s => { s with refreshCalls := s.refreshCalls + 1 }))
      (fun message => do
        H.consoleError ("Error deleting region: " ++ message)
        H.alert "Failed to delete region.")
  else pure ()

/-- The handler `handleDelete` of `GameModeManagement.jsx`, lines 64-74. -/
def GameModeManagement.handleDelete (id : String) (confirmed : Bool) : H ListState Unit :=
  if confirmed then
    H.tryCatch
      (do
        H.await (.GameMode_delete id)
        H.set (fun s => { s with refreshCalls := s.refreshCalls + 1 }))
      (fun message => do
        H.consoleError ("Error deleting game mode: " ++ message)
        H.alert "Failed to delete game mode.")
  else pure ()

/-- The handler `handleDelete` of `TournamentTemplateManagement.jsx`, lines
81-90. -/
def TournamentTemplateManagement.handleDelete (id : String) (confirmed : Bool) :
    H ListState Unit :=
  if confirmed then
    H.tryCatch
      (do
        H.await (.TournamentTemplate_delete id)
        H.set (fun s => { s with refreshCalls := s.refreshCalls + 1 }))
      (fun message => H.consoleError ("Error deleting template: " ++ message))
  else pure ()

/-! ## `Profile.jsx` and `UserManagement.jsx`: `formatUserId` -/

/-- The conversion `ToInt32` of a JavaScript integer value, as performed by the
bitwise operators. -/
def toInt32 (x : Int) : Int :=
  (x + 2147483648) % 4294967296 - 2147483648

/-- The body of the loop of `formatUserId`:
`hash = ((hash << 5) - hash) + char; hash = hash & hash`. -/
def hashStep (hash : Int) (char : Nat) : Int :=
  toInt32 ((toInt32 (hash * 32) - hash) + char)

/-- The value of `hash` after the loop over `id.charCodeAt(i)`. -/
def hashOf (id : String) : Int :=
  (utf16Units id).foldl hashStep 0

/-- The expression `s.slice(0, 9)` on a string of decimal digits. -/
def slice9 (s : String) : String :=
  String.mk (s.data.take 9)

/-- The expression `s.padEnd(11, '0')` on a string of decimal digits. -/
def padEnd11 (s : String) : String :=
  s ++ String.mk (List.replicate (11 - s.length) '0')

/-- The helper `formatUserId` (Profile.jsx lines 19-31, UserManagement.jsx
lines 15-26); a missing id is `none`. -/
def formatUserId (id : Option String) : String :=
  match id with
  | none => ""
  | some id =>
    if id = "" then ""
    else
      let hash := hashOf id
      let uid := "10" ++ slice9 (toString hash.natAbs)
      padEnd11 uid

/-! ## Observations on runs -/

/-- The component state and log at the end of a `confirmRegistration` run
started from the captured state `c`. -/
def confirmRegistrationRun (r : Remote) (c : GameModePageState) (now : String) :
    Run GameModePageState :=
  ((confirmRegistration c now).run r c).2

/-- The call is `User.updateMyUserData`. -/
def Call.isWalletUpdate : Call → Bool
  | .User_updateMyUserData _ => true
  | _ => false

/-- The call is `Transaction.create`. -/
def Call.isTransactionCreate : Call → Bool
  | .Transaction_create _ _ _ _ _ => true
  | _ => false

/-- The call is `Participation.create`. -/
def Call.isParticipationCreate : Call → Bool
  | .Participation_create _ => true
  | _ => false

/-- The call is `processTournamentQueue`. -/
def Call.isProcessTournamentQueue : Call → Bool
  | .processTournamentQueue _ => true
  | _ => false

/-- The call is `ReferralCode.create`. -/
def Call.isReferralCodeCreate : Call → Bool
  | .ReferralCode_create _ _ => true
  | _ => false

/-- Some `Participation.create` of the run resolved. -/
def participationCreated {σ : Type} (s : Run σ) : Bool :=
  s.trace.any (fun e => e.1.isParticipationCreate && e.2)

/-- Once a call of the run has rejected no further call is issued: every
call but the last one resolved. -/
def stopsAtFailure {σ : Type} (s : Run σ) : Prop :=
  ∀ e ∈ s.trace.dropLast, e.2 = true

/-- Some call of the run rejected. -/
def someCallFailed {σ : Type} (s : Run σ) : Prop :=
  ∃ c, (c, false) ∈ s.trace

/-- The handler caught every failure: it completed normally, issued no call
after a rejected one, and wrote to the console when a call rejected. -/
def caughtAndLogged {σ : Type} (res : Except String Unit × Run σ) : Prop :=
  res.1 = .ok () ∧ stopsAtFailure res.2 ∧ (someCallFailed res.2 → res.2.console ≠ [])

/-- The run wrote nothing to the console and showed no alert. -/
def silent {σ : Type} (s : Run σ) : Prop :=
  s.console = [] ∧ s.alerts = []

/-- The run state when the `try` block of `confirmRegistration` is entered. -/
def regStart (c : GameModePageState) : Run GameModePageState :=
  { ui := { c with isRegistering := true, registrationError := "" },
    trace := [], console := [], alerts := [] }

/-- The `catch` and `finally` clauses of `confirmRegistration` applied to the
outcome of the `try` block. -/
def regFinish (res : Except String Unit × Run GameModePageState) : Run GameModePageState :=
  match res with
  | (.ok _, s1) => { s1 with ui := { s1.ui with isRegistering := false } }
  | (.error e, s1) =>
    { s1 with
      ui := { s1.ui with
        registrationError :=
          if e ≠ "" then e else "An unexpected error occurred. Please try again."
        isRegistering := false }
      console := s1.console ++ ["Registration failed: " ++ e] }

/-- The validity of a referral code in the words of the specification: 1 to
10 characters, each an ASCII letter or digit. -/
def validReferralCode (s : String) : Prop :=
  s ≠ "" ∧ s.length ≤ 10 ∧ ∀ ch ∈ s.data, ch.isAlpha = true ∨ ch.isDigit = true

/-! ## Sample backends and inputs -/

/-- A backend on which every call resolves: `User.me()` gives `u`,
`Tournament.get` gives `t`, the queue query gives `queued`, the referral-code
query gives `codes`, the other list queries give the empty list. -/
def okRemote (u : UserRecord) (t : TournamentRecord) (queued : List ParticipationRecord)
    (codes : List ReferralCodeRecord) : Remote := fun _ c =>
  match c with
  | .User_me => .ok u
  | .Participation_filter _ _ => .ok queued
  | .Participation_filterByCode _ => .ok []
  | .Tournament_get _ => .ok t
  | .Tournament_filterInRegion _ _ => .ok []
  | .Transaction_filter _ _ => .ok []
  | .ReferralCode_filter _ => .ok codes
  | .ReferralCode_create a b => .ok { creator_id := a, code := b }
  | .Notification_filter _ _ _ => .ok []
  | .Tournament_list => .ok []
  | .Tournament_create _ _ _ _ _ => .ok ()
  | .User_updateMyUserData _ => .ok ()
  | .Transaction_create _ _ _ _ _ => .ok ()
  | .Participation_create _ => .ok ()
  | .Tournament_update _ _ => .ok ()
  | .Tournament_delete _ => .ok ()
  | .processTournamentQueue _ => .ok ()
  | .processWinnerSelection _ _ => .ok ()
  | .Notification_update _ _ => .ok ()
  | .Notification_create _ _ _ => .ok ()
  | .Game_list => .ok []
  | .Game_create _ _ => .ok ()
  | .User_update _ _ => .ok ()
  | .Game_delete _ => .ok ()
  | .User_delete _ => .ok ()
  | .Region_delete _ => .ok ()
  | .GameMode_delete _ => .ok ()
  | .TournamentTemplate_delete _ => .ok ()

/-- The backend `r`, except that the call issued after `k` earlier calls
rejects with `msg`. -/
def failAt (k : Nat) (msg : String) (r : Remote) : Remote := fun n c =>
  if n = k then .error msg else r n c

/-- The backend `r`, except that a resolving queue query
`Participation.filter(player_id, template_id, tournament_id: null)` resolves
to `queued`. -/
def withQueue (queued : List ParticipationRecord) (r : Remote) : Remote := fun n c =>
  match c with
  | .Participation_filter a b =>
    (match r n (.Participation_filter a b) with
     | .ok _ => .ok queued
     | .error e => .error e)
  | c => r n c

def sampleUser : UserRecord :=
  { id := "u1", full_name := "Ann", email := "ann@example.org", wallet_balance := some 100 }

def sampleItem : Item :=
  { id := "T1", entry_fee := some 30, name := some "Cup", title := none }

def sampleForm : RegistrationData :=
  { in_game_name := "ann", in_game_uid := "", referral_code := "" }

/-- The page with a template selected. -/
def templatePage : GameModePageState :=
  { selectedTemplate := some sampleItem, selectedTournament := none,
    registrationData := sampleForm, currencySymbol := "$", isRegistering := false,
    registrationError := "", showConfirmDialog := true, loadDataCalls := 0 }

/-- The page with a manual tournament selected. -/
def tournamentPage : GameModePageState :=
  { templatePage with selectedTemplate := none, selectedTournament := some sampleItem }

/-- The template page with an entry fee of 500. -/
def expensivePage : GameModePageState :=
  { templatePage with selectedTemplate := some { sampleItem with entry_fee := some 500 } }

/-- The template page with no entry fee. -/
def freePage : GameModePageState :=
  { templatePage with selectedTemplate := some { sampleItem with entry_fee := none } }

/-- A queued participation of the sample user for the sample template. -/
def queuedSample : ParticipationRecord :=
  { player_id := "u1", template_id := some "T1", tournament_id := none,
    registration_date := "2025-01-01T00:00:00.000Z" }

/-- The payload of the sample user's registration on the template page. -/
def templatePayload : ParticipationPayload :=
  { player_id := "u1", player_name := "Ann", player_email := "ann@example.org",
    registration_date := "2025-01-02T00:00:00.000Z", status := "registered",
    in_game_name := "ann", in_game_uid := none, used_referral_code := none,
    template_id := some "T1", tournament_id := none }

/-- A creator dashboard with `code` typed into the form. -/
def creatorPage (code : String) : CreatorDashboardState :=
  { user := some sampleUser, region := some "eu", newCode := code, error := "",
    referralCode := none, stats := { referrals := 0, earnings := 0, chartData := [] },
    transactions := [] }

/-- A chart computation that never throws. -/
def noChart : List ParticipationRecord → Except String (List (String × Nat)) :=
  fun _ => .ok []

/-- A tournament-management page with one game mode of one game. -/
def managementPage : TournamentManagementState :=
  { gameModes := [{ id := "m1", game_id := "g1" }],
    games := [{ id := "g1", game_code := some "101" }],
    game_mode_id := "m1", selectedRegion := "eu", showCreateDialog := true,
    selectedGame := "g1", loadDataCalls := 0 }

/-- Two existing games, with the codes 101 and 102. -/
def twoGames : List GameRecord :=
  [{ id := "g1", game_code := some "101" }, { id := "g2", game_code := some "102" }]

/-- A game-management page with the create dialog open. -/
def gamePage : GameManagementState :=
  { game_code := "", selectedRegion := "eu", showCreateDialog := true, loadDataCalls := 0 }

/-- The tournament-management page whose game has no `game_code`. -/
def uncodedPage : TournamentManagementState :=
  { managementPage with games := [{ id := "g1", game_code := none }] }

/-- The edit dialog of user `u7`, with the role moderator and the game `g1`
chosen. -/
def editPage : UserManagementState :=
  { editingUser := some "u7",
    formData := { app_role := "moderator", assigned_game_id := some "g1" },
    showEditDialog := true, loadDataCalls := 0 }

def sampleRemote : Remote := okRemote sampleUser { current_participants := some 3 } [] []

/-- The sample backend with `twoGames` as the existing games. -/
def gamesRemote : Remote := fun n c =>
  match c with
  | .Game_list => .ok twoGames
  | c => sampleRemote n c

/-- The sample backend with one existing tournament, `undefined0000001`. -/
def uncodedRemote : Remote := fun n c =>
  match c with
  | .Tournament_list => .ok [{ id := "t1", tournament_id_custom := some "undefined0000001" }]
  | c => sampleRemote n c

/-- The sample backend with one existing tournament, `1010000041`. -/
def codedRemote : Remote := fun n c =>
  match c with
  | .Tournament_list => .ok [{ id := "t1", tournament_id_custom := some "1010000041" }]
  | c => sampleRemote n c

/-- The sample backend with the referral code `ann1` already stored. -/
def takenRemote : Remote :=
  okRemote sampleUser { current_participants := some 3 } []
    [{ creator_id := "u2", code := "ann1" }]

/-- The sample backend with the sample user already queued for the sample
template. -/
def queuedRemote : Remote :=
  okRemote sampleUser { current_participants := some 3 } [queuedSample] []

/-! ## Evaluation lemmas for handler runs -/

namespace H

variable {σ α β : Type}

theorem pure_apply (a : α) (r : Remote) (s : Run σ) :
    (pure a : H σ α) r s = (.ok a, s) := rfl

theorem ite_app (p : Prop) [Decidable p] (x y : H σ α) (r : Remote) (s : Run σ) :
    (if p then x else y) r s = if p then x r s else y r s := by
  split <;> rfl

theorem await_apply (c : Call) (r : Remote) (s : Run σ) :
    (H.await c) r s = (match r s.trace.length c with
      | .ok a => (.ok a, { s with trace := s.trace ++ [(c, true)] })
      | .error e => (.error e, { s with trace := s.trace ++ [(c, false)] })) := rfl

theorem await_bind (c : Call) (f : c.Resp → H σ β) (r : Remote) (s : Run σ) :
    (H.await c >>= f) r s = (match r s.trace.length c with
      | .ok a => f a r { s with trace := s.trace ++ [(c, true)] }
      | .error e => (.error e, { s with trace := s.trace ++ [(c, false)] })) := by
  show H.bind (H.await c) f r s = _
  unfold H.bind H.await
  cases r s.trace.length c <;> rfl

theorem set_apply (g : σ → σ) (r : Remote) (s : Run σ) :
    (H.set g) r s = (.ok (), { s with ui := g s.ui }) := rfl

theorem set_bind (g : σ → σ) (f : Unit → H σ β) (r : Remote) (s : Run σ) :
    (H.set g >>= f) r s = f () r { s with ui := g s.ui } := rfl

theorem consoleError_apply (m : String) (r : Remote) (s : Run σ) :
    (H.consoleError m) r s = (.ok (), { s with console := s.console ++ [m] }) := rfl

theorem consoleError_bind (m : String) (f : Unit → H σ β) (r : Remote) (s : Run σ) :
    (H.consoleError m >>= f) r s = f () r { s with console := s.console ++ [m] } := rfl

theorem alert_apply (m : String) (r : Remote) (s : Run σ) :
    (H.alert m) r s = (.ok (), { s with alerts := s.alerts ++ [m] }) := rfl

theorem alert_bind (m : String) (f : Unit → H σ β) (r : Remote) (s : Run σ) :
    (H.alert m >>= f) r s = f () r { s with alerts := s.alerts ++ [m] } := rfl

theorem pure_bind (a : α) (f : α → H σ β) : (pure a >>= f) = f a := rfl

theorem ofExcept_bind (x : Except String α) (f : α → H σ β) (r : Remote) (s : Run σ) :
    (H.ofExcept x >>= f) r s = (match x with
      | .ok a => f a r s
      | .error e => (.error e, s)) := by
  show H.bind (H.ofExcept x) f r s = _
  unfold H.bind H.ofExcept
  cases x <;> rfl

theorem throw_apply (m : String) (r : Remote) (s : Run σ) :
    (H.throw m : H σ α) r s = (.error m, s) := rfl

theorem throw_bind (m : String) (f : α → H σ β) (r : Remote) (s : Run σ) :
    ((H.throw m : H σ α) >>= f) r s = (.error m, s) := rfl

theorem bind_assoc {γ : Type} (x : H σ α) (f : α → H σ β) (g : β → H σ γ) :
    (x >>= f) >>= g = x >>= fun a => f a >>= g := by
  funext r s
  show H.bind (H.bind x f) g r s = H.bind x (fun a => H.bind (f a) g) r s
  unfold H.bind
  rcases x r s with ⟨_ | _, _⟩ <;> rfl

end H

/-! ## `confirmRegistration` -/

theorem confirmRegistrationRun_eq (r : Remote) (c : GameModePageState) (now : String) :
    confirmRegistrationRun r c now = regFinish (confirmRegistrationBody c now r (regStart c)) := by
  simp only [confirmRegistrationRun, confirmRegistration, H.run, H.set_bind, H.tryFinally,
    H.tryCatch, regStart, regFinish, H.consoleError_bind, H.set_apply]
  rcases confirmRegistrationBody c now r _ with ⟨_ | _, s1⟩ <;> rfl

theorem insufficientMessage_ne_empty (cs : String) (a b : Int) :
    insufficientMessage cs a b ≠ "" := by
  intro h
  have hlen := congrArg String.length h
  simp only [insufficientMessage, String.length_append] at hlen
  have h1 : ("Insufficient wallet balance. Required: ").length = 39 := by decide
  have h0 : ("" : String).length = 0 := rfl
  omega

/-- C1, the claim as stated fails: on the template page, with a fee of 30 and
a balance of 100, let `processTournamentQueue` (the sixth call) reject.  The
wallet debit to 70 has resolved, a later call has rejected, and yet the
`Participation.create` of the run has resolved: the participation exists. -/
theorem confirmRegistration_queue_failure_keeps_participation :
    (Call.User_updateMyUserData 70, true) ∈
      (confirmRegistrationRun (failAt 5 "queue unavailable" sampleRemote) templatePage
        "2025-01-02T00:00:00.000Z").trace ∧
    (Call.processTournamentQueue "T1", false) ∈
      (confirmRegistrationRun (failAt 5 "queue unavailable" sampleRemote) templatePage
        "2025-01-02T00:00:00.000Z").trace ∧
    participationCreated
      (confirmRegistrationRun (failAt 5 "queue unavailable" sampleRemote) templatePage
        "2025-01-02T00:00:00.000Z") = true := by
  decide

/-- C1, amended: for a selected item with a positive entry fee and a user
whose latest balance covers it, if the wallet debit resolved and some call of
the run rejected, then the rejected call is the last call issued (nothing
compensates), the debit is the only wallet write of the run, the component
state differs from the captured one only in `registrationError` (the message
of the rejection, or the default text) with `isRegistering` back to `false`,
and a participation has been created exactly when the rejected call is
`processTournamentQueue`. -/
theorem confirmRegistration_no_compensation (r : Remote) (c : GameModePageState)
    (now : String) (item : Item) (u : UserRecord)
    (hitem : (c.selectedTemplate <|> c.selectedTournament) = some item)
    (hname : c.registrationData.in_game_name ≠ "")
    (hme : r 0 .User_me = .ok u)
    (hfee : 0 < orZero item.entry_fee)
    (hbal : orZero item.entry_fee ≤ orZero u.wallet_balance)
    (hdebit : (Call.User_updateMyUserData (orZero u.wallet_balance - orZero item.entry_fee), true)
      ∈ (confirmRegistrationRun r c now).trace)
    (hfail : someCallFailed (confirmRegistrationRun r c now)) :
    ∃ cf msg,
      (confirmRegistrationRun r c now).trace.getLast? = some (cf, false) ∧
      stopsAtFailure (confirmRegistrationRun r c now) ∧
      r ((confirmRegistrationRun r c now).trace.length - 1) cf = .error msg ∧
      (calls (confirmRegistrationRun r c now)).filter Call.isWalletUpdate =
        [.User_updateMyUserData (orZero u.wallet_balance - orZero item.entry_fee)] ∧
      (confirmRegistrationRun r c now).ui = { c with
        isRegistering := false
        registrationError :=
          if msg ≠ "" then msg else "An unexpected error occurred. Please try again." } ∧
      (participationCreated (confirmRegistrationRun r c now) = true ↔
        cf.isProcessTournamentQueue = true) := by
  unfold someCallFailed at hfail
  unfold stopsAtFailure
  rw [confirmRegistrationRun_eq] at hdebit hfail ⊢
  generalize hres : confirmRegistrationBody c now r (regStart c) = res at hdebit hfail ⊢
  rcases c with ⟨st, sm, ⟨ign, igu, rc⟩, cs, ir, re, scd, ldc⟩
  have hbal2 : ¬ (orZero u.wallet_balance < orZero item.entry_fee) := not_lt.mpr hbal
  cases st <;> cases sm <;>
  simp [confirmRegistrationBody, regStart, H.await_bind, H.set_bind, H.pure_bind, H.bind_assoc,
    H.throw_apply, H.ite_app, H.await_apply, H.set_apply, hme] at hres hitem hname <;>
  subst hitem <;>
  simp [hname, hbal2, hfee] at hres <;>
  (repeat' split at hres) <;>
  subst hres <;>
  simp_all [regFinish, calls, participationCreated, Call.isProcessTournamentQueue,
    Call.isParticipationCreate, Call.isWalletUpdate]

/-- C1, amended, at a concrete input: `Participation.create` (the fifth call)
rejects on the template page. -/
theorem confirmRegistration_no_compensation_witness :
    ∃ cf msg,
      (confirmRegistrationRun (failAt 4 "write refused" sampleRemote) templatePage
        "2025-01-02T00:00:00.000Z").trace.getLast? = some (cf, false) ∧
      stopsAtFailure (confirmRegistrationRun (failAt 4 "write refused" sampleRemote)
        templatePage "2025-01-02T00:00:00.000Z") ∧
      failAt 4 "write refused" sampleRemote
        ((confirmRegistrationRun (failAt 4 "write refused" sampleRemote) templatePage
          "2025-01-02T00:00:00.000Z").trace.length - 1) cf = .error msg ∧
      (calls (confirmRegistrationRun (failAt 4 "write refused" sampleRemote) templatePage
        "2025-01-02T00:00:00.000Z")).filter Call.isWalletUpdate =
        [.User_updateMyUserData (orZero sampleUser.wallet_balance - orZero sampleItem.entry_fee)] ∧
      (confirmRegistrationRun (failAt 4 "write refused" sampleRemote) templatePage
        "2025-01-02T00:00:00.000Z").ui = { templatePage with
        isRegistering := false
        registrationError :=
          if msg ≠ "" then msg else "An unexpected error occurred. Please try again." } ∧
      (participationCreated (confirmRegistrationRun (failAt 4 "write refused" sampleRemote)
        templatePage "2025-01-02T00:00:00.000Z") = true ↔
        cf.isProcessTournamentQueue = true) :=
  confirmRegistration_no_compensation (failAt 4 "write refused" sampleRemote) templatePage
    "2025-01-02T00:00:00.000Z" sampleItem sampleUser rfl (by decide) rfl (by decide) (by decide)
    (by decide) ⟨Call.Participation_create templatePayload, by decide⟩

theorem caught_message_ne_empty (e : String) :
    (if e = "" then "An unexpected error occurred. Please try again." else e) ≠ "" := by
  split
  · decide
  · assumption

/-- C2: in a successful paid registration (positive fee, sufficient balance,
the run ends with no registration error) every call issued has resolved, and
the remote writes are, in order, the wallet debit, `Transaction.create`, for a
manual tournament `Tournament.update`, `Participation.create`, and for a
template `processTournamentQueue`.  Each `await` obtains the outcome of its
call before the next call is issued. -/
theorem confirmRegistration_write_order (r : Remote) (c : GameModePageState)
    (now : String) (item : Item) (u : UserRecord)
    (hitem : (c.selectedTemplate <|> c.selectedTournament) = some item)
    (hme : r 0 .User_me = .ok u)
    (hfee : 0 < orZero item.entry_fee)
    (hbal : orZero item.entry_fee ≤ orZero u.wallet_balance)
    (hok : (confirmRegistrationRun r c now).ui.registrationError = "") :
    (∀ e ∈ (confirmRegistrationRun r c now).trace, e.2 = true) ∧
    ∃ description related n payload,
      writes (confirmRegistrationRun r c now) =
        [Call.User_updateMyUserData (orZero u.wallet_balance - orZero item.entry_fee),
         Call.Transaction_create u.id (-orZero item.entry_fee) "entry_fee" description related] ++
        (if c.selectedTemplate.isSome then [] else [Call.Tournament_update item.id n]) ++
        [Call.Participation_create payload] ++
        (if c.selectedTemplate.isSome then [Call.processTournamentQueue item.id] else []) := by
  rw [confirmRegistrationRun_eq] at hok ⊢
  generalize hres : confirmRegistrationBody c now r (regStart c) = res at hok ⊢
  rcases c with ⟨st, sm, ⟨ign, igu, rc⟩, cs, ir, re, scd, ldc⟩
  have hbal2 : ¬ (orZero u.wallet_balance < orZero item.entry_fee) := not_lt.mpr hbal
  cases st <;> cases sm <;>
  simp [confirmRegistrationBody, regStart, H.await_bind, H.set_bind, H.pure_bind, H.bind_assoc,
    H.throw_apply, H.ite_app, H.await_apply, H.set_apply, hme] at hres hitem <;>
  subst hitem <;>
  simp [hbal2, hfee] at hres <;>
  (repeat' split at hres) <;>
  subst hres <;>
  simp_all [regFinish, writes, calls, Call.isWrite, insufficientMessage_ne_empty,
    caught_message_ne_empty]

/-- C2 at a concrete input: the sample user registers on the manual
tournament page and every call resolves. -/
theorem confirmRegistration_write_order_witness :
    (∀ e ∈ (confirmRegistrationRun sampleRemote tournamentPage "2025-01-02T00:00:00.000Z").trace,
      e.2 = true) ∧
    ∃ description related n payload,
      writes (confirmRegistrationRun sampleRemote tournamentPage "2025-01-02T00:00:00.000Z") =
        [Call.User_updateMyUserData (orZero sampleUser.wallet_balance - orZero sampleItem.entry_fee),
         Call.Transaction_create sampleUser.id (-orZero sampleItem.entry_fee) "entry_fee"
           description related] ++
        (if tournamentPage.selectedTemplate.isSome then []
         else [Call.Tournament_update sampleItem.id n]) ++
        [Call.Participation_create payload] ++
        (if tournamentPage.selectedTemplate.isSome then
          [Call.processTournamentQueue sampleItem.id] else []) :=
  confirmRegistration_write_order sampleRemote tournamentPage "2025-01-02T00:00:00.000Z"
    sampleItem sampleUser rfl rfl (by decide) (by decide) (by decide)

/-- C3: when the balance returned by `User.me()` (0 if absent) is smaller
than the entry fee, the run issues no remote write, its only call being
`User.me()`, and ends with the `Insufficient wallet balance` message as the
registration error and `isRegistering` back to `false`. -/
theorem confirmRegistration_insufficient_balance (r : Remote) (c : GameModePageState)
    (now : String) (item : Item) (u : UserRecord)
    (hitem : (c.selectedTemplate <|> c.selectedTournament) = some item)
    (hname : c.registrationData.in_game_name ≠ "")
    (hme : r 0 .User_me = .ok u)
    (hlt : orZero u.wallet_balance < orZero item.entry_fee) :
    writes (confirmRegistrationRun r c now) = [] ∧
    (confirmRegistrationRun r c now).trace = [(.User_me, true)] ∧
    (confirmRegistrationRun r c now).ui = { c with
      isRegistering := false
      registrationError :=
        "Insufficient wallet balance. Required: " ++ c.currencySymbol ++
          toString (orZero item.entry_fee) ++ ". Current: " ++ c.currencySymbol ++
          toString (orZero u.wallet_balance) } := by
  simp [confirmRegistrationRun_eq, confirmRegistrationBody, regStart, regFinish, H.await_bind,
    H.set_bind, H.ite_app, H.set_apply, hitem, hname, hme, hlt, writes, calls, Call.isWrite,
    insufficientMessage]

/-- C3 at a concrete input: a balance of 100 against a fee of 500. -/
theorem confirmRegistration_insufficient_balance_witness :
    writes (confirmRegistrationRun sampleRemote expensivePage "2025-01-02T00:00:00.000Z") = [] ∧
    (confirmRegistrationRun sampleRemote expensivePage "2025-01-02T00:00:00.000Z").trace =
      [(.User_me, true)] ∧
    (confirmRegistrationRun sampleRemote expensivePage "2025-01-02T00:00:00.000Z").ui =
      { expensivePage with
        isRegistering := false
        registrationError := "Insufficient wallet balance. Required: $500. Current: $100" } :=
  confirmRegistration_insufficient_balance sampleRemote expensivePage
    "2025-01-02T00:00:00.000Z" { sampleItem with entry_fee := some 500 } sampleUser rfl
    (by decide) rfl (by decide)

/-- C4, the claim as stated fails: the sample user is already queued for the
sample template (the queue query resolves to a non-empty list), and the run
still debits the wallet and creates a new participation. -/
theorem confirmRegistration_queued_player_registers_again :
    (Call.Participation_filter "u1" "T1", true) ∈
      (confirmRegistrationRun queuedRemote templatePage "2025-01-02T00:00:00.000Z").trace ∧
    (Call.User_updateMyUserData 70, true) ∈
      (confirmRegistrationRun queuedRemote templatePage "2025-01-02T00:00:00.000Z").trace ∧
    (Call.Participation_create templatePayload, true) ∈
      (confirmRegistrationRun queuedRemote templatePage "2025-01-02T00:00:00.000Z").trace := by
  decide

/-- C4, amended: for a template the run queries the queued participations of
the player and ignores the answer: whatever list the query resolves to, the
run (calls, outcomes, component state, log) is the same. -/
theorem confirmRegistration_ignores_queue_query (r : Remote) (c : GameModePageState)
    (now : String) (queued : List ParticipationRecord) :
    confirmRegistrationRun (withQueue queued r) c now = confirmRegistrationRun r c now := by
  rw [confirmRegistrationRun_eq, confirmRegistrationRun_eq]
  congr 1
  rcases c with ⟨st, sm, ⟨ign, igu, rc⟩, cs, ir, re, scd, ldc⟩
  cases st with
  | none =>
    cases sm <;>
    simp [confirmRegistrationBody, regStart, H.await_bind, H.set_bind, H.pure_bind,
      H.bind_assoc, H.throw_apply, H.ite_app, H.await_apply, H.set_apply, withQueue]
  | some tpl =>
    have hitem : (some tpl <|> sm) = some tpl := by cases sm <;> rfl
    simp only [confirmRegistrationBody, hitem]
    by_cases hn : ign = ""
    · simp [hn, regStart, H.set_bind, H.set_apply]
    · cases h0 : r 0 Call.User_me with
      | error e =>
        simp [hn, regStart, H.await_bind, withQueue, h0]
      | ok a =>
        by_cases hl : orZero a.wallet_balance < orZero tpl.entry_fee
        · simp [hn, regStart, H.await_bind, H.set_bind, H.set_apply, withQueue, h0, hl]
        · cases h1 : r 1 (Call.Participation_filter a.id tpl.id) <;>
          simp [hn, regStart, H.await_bind, H.set_bind, H.pure_bind, H.bind_assoc,
            H.ite_app, H.await_apply, H.set_apply, withQueue, h0, hl, h1]

/-- C5: for an item whose entry fee is 0, missing or negative, a run that ends
with no registration error has issued neither `User.updateMyUserData` nor
`Transaction.create`, and its `Participation.create` has resolved. -/
theorem confirmRegistration_free_entry (r : Remote) (c : GameModePageState)
    (now : String) (item : Item)
    (hitem : (c.selectedTemplate <|> c.selectedTournament) = some item)
    (hfee : orZero item.entry_fee ≤ 0)
    (hok : (confirmRegistrationRun r c now).ui.registrationError = "") :
    (∀ call ∈ calls (confirmRegistrationRun r c now),
      call.isWalletUpdate = false ∧ call.isTransactionCreate = false) ∧
    participationCreated (confirmRegistrationRun r c now) = true := by
  rw [confirmRegistrationRun_eq] at hok ⊢
  generalize hres : confirmRegistrationBody c now r (regStart c) = res at hok ⊢
  rcases c with ⟨st, sm, ⟨ign, igu, rc⟩, cs, ir, re, scd, ldc⟩
  have hfee2 : ¬ (0 < orZero item.entry_fee) := not_lt.mpr hfee
  cases st <;> cases sm <;>
  simp [confirmRegistrationBody, regStart, H.await_bind, H.set_bind, H.pure_bind, H.bind_assoc,
    H.throw_apply, H.ite_app, H.await_apply, H.set_apply] at hres hitem <;>
  subst hitem <;>
  simp [hfee2] at hres <;>
  (repeat' split at hres) <;>
  subst hres <;>
  simp_all [regFinish, calls, participationCreated, Call.isParticipationCreate,
    Call.isWalletUpdate, Call.isTransactionCreate, insufficientMessage_ne_empty,
    caught_message_ne_empty]

/-- C5 at a concrete input: the template of the page has no entry fee. -/
theorem confirmRegistration_free_entry_witness :
    (∀ call ∈ calls (confirmRegistrationRun sampleRemote freePage "2025-01-02T00:00:00.000Z"),
      call.isWalletUpdate = false ∧ call.isTransactionCreate = false) ∧
    participationCreated
      (confirmRegistrationRun sampleRemote freePage "2025-01-02T00:00:00.000Z") = true :=
  confirmRegistration_free_entry sampleRemote freePage "2025-01-02T00:00:00.000Z"
    { sampleItem with entry_fee := none } rfl (by decide) (by decide)

/-- C6: the `processTournamentQueue` calls of a run are exactly one call with
the id of the selected template when a template is selected and
`Participation.create` has resolved, and none otherwise; in particular none
for a manual tournament. -/
theorem confirmRegistration_processTournamentQueue (r : Remote) (c : GameModePageState)
    (now : String) :
    (calls (confirmRegistrationRun r c now)).filter Call.isProcessTournamentQueue =
      (match c.selectedTemplate with
       | some tpl =>
         if participationCreated (confirmRegistrationRun r c now) then
           [.processTournamentQueue tpl.id] else []
       | none => []) := by
  rw [confirmRegistrationRun_eq]
  generalize hres : confirmRegistrationBody c now r (regStart c) = res
  rcases c with ⟨st, sm, ⟨ign, igu, rc⟩, cs, ir, re, scd, ldc⟩
  cases st <;> cases sm <;>
  simp [confirmRegistrationBody, regStart, H.await_bind, H.set_bind, H.pure_bind, H.bind_assoc,
    H.throw_apply, H.ite_app, H.await_apply, H.set_apply] at hres <;>
  (repeat' split at hres) <;>
  subst hres <;>
  simp [regFinish, calls, participationCreated, Call.isProcessTournamentQueue,
    Call.isParticipationCreate]

/-! ## `handleConfirmWinner` -/

/-- C7: with a tournament and a winner selected the run issues exactly the
call `processWinnerSelection(tournament_id: selectedTournament.id, winner_id:
selectedWinner)`; when either is missing it issues no call, alerts
`Please select a winner.` and leaves the component state as it was. -/
theorem handleConfirmWinner_calls (r : Remote) (c : ModeratorDashboardState) :
    (match c.selectedTournament with
     | some t =>
       if c.selectedWinner ≠ "" then
         calls ((handleConfirmWinner c).run r c).2 =
           [Call.processWinnerSelection t.id c.selectedWinner]
       else
         ((handleConfirmWinner c).run r c).2.trace = [] ∧
         ((handleConfirmWinner c).run r c).2.alerts = ["Please select a winner."] ∧
         ((handleConfirmWinner c).run r c).2.ui = c
     | none =>
       ((handleConfirmWinner c).run r c).2.trace = [] ∧
       ((handleConfirmWinner c).run r c).2.alerts = ["Please select a winner."] ∧
       ((handleConfirmWinner c).run r c).2.ui = c) := by
  rcases c with ⟨st, sw, sd, as, sch⟩
  cases st with
  | none => simp [handleConfirmWinner, H.run, H.alert_apply]
  | some t =>
    by_cases hw : sw = ""
    · simp [handleConfirmWinner, H.run, H.alert_apply, hw]
    · cases h0 : r 0 (Call.processWinnerSelection t.id sw) <;>
      simp [handleConfirmWinner, H.run, H.tryCatch, H.await_bind, H.set_bind, H.set_apply,
        H.consoleError_bind, H.alert_apply, hw, h0, calls]
/-! ## `handleCreateCode` -/

theorem isAlnumClass_iff (ch : Char) :
    isAlnumClass ch = true ↔ (ch.isAlpha = true ∨ ch.isDigit = true) := by
  have h1 : ∀ a b : UInt32, a ≤ b ↔ a.toNat ≤ b.toNat := fun a b => Iff.rfl
  have h2 : ∀ a b : UInt32, a ≥ b ↔ b.toNat ≤ a.toNat := fun a b => Iff.rfl
  simp only [isAlnumClass, Char.isAlpha, Char.isUpper, Char.isLower, Char.isDigit,
    Bool.or_eq_true, Bool.and_eq_true, decide_eq_true_eq, h1, h2, Char.toNat]
  have e1 : (97 : UInt32).toNat = 97 := rfl
  have e2 : (122 : UInt32).toNat = 122 := rfl
  have e3 : (65 : UInt32).toNat = 65 := rfl
  have e4 : (90 : UInt32).toNat = 90 := rfl
  have e5 : (48 : UInt32).toNat = 48 := rfl
  have e6 : (57 : UInt32).toNat = 57 := rfl
  have f1 : ('a' : Char).val.toNat = 97 := rfl
  have f2 : ('z' : Char).val.toNat = 122 := rfl
  have f3 : ('A' : Char).val.toNat = 65 := rfl
  have f4 : ('Z' : Char).val.toNat = 90 := rfl
  have f5 : ('0' : Char).val.toNat = 48 := rfl
  have f6 : ('9' : Char).val.toNat = 57 := rfl
  rw [e1, e2, e3, e4, e5, e6, f1, f2, f3, f4, f5, f6]
  tauto

theorem jsLength_of_alnum (l : List Char) (h : l.all isAlnumClass = true) :
    (l.map (fun ch => if ch.toNat < 65536 then 1 else 2)).sum = l.length := by
  induction l with
  | nil => rfl
  | cons a t ih =>
    simp only [List.all_cons, Bool.and_eq_true] at h
    have ha : a.toNat < 65536 := by
      have := h.1
      simp only [isAlnumClass, Bool.or_eq_true, Bool.and_eq_true, decide_eq_true_eq] at this
      have f2 : ('z' : Char).toNat = 122 := rfl
      have f4 : ('Z' : Char).toNat = 90 := rfl
      have f6 : ('9' : Char).toNat = 57 := rfl
      omega
    simp [ha, ih h.2]
    omega

theorem codeRejected_eq_false_iff (s : String) :
    codeRejected s = false ↔ validReferralCode s := by
  unfold codeRejected validReferralCode
  rcases s with ⟨l⟩
  simp only [Bool.or_eq_false_iff, decide_eq_false_iff_not, Bool.not_eq_false', alnumRegexTest,
    jsLength, Bool.and_eq_true, Bool.not_eq_true', String.length]
  constructor
  · rintro ⟨⟨h1, h2⟩, h3, h4⟩
    refine ⟨h1, ?_, ?_⟩
    · rw [jsLength_of_alnum l h4] at h2
      omega
    · intro ch hch
      exact (isAlnumClass_iff ch).1 (List.all_eq_true.1 h4 ch hch)
  · rintro ⟨h1, h2, h3⟩
    have h4 : l.all isAlnumClass = true :=
      List.all_eq_true.2 (fun ch hch => (isAlnumClass_iff ch).2 (h3 ch hch))
    refine ⟨⟨h1, ?_⟩, ?_, h4⟩
    · rw [jsLength_of_alnum l h4]
      omega
    · cases l with
      | nil => exact absurd rfl h1
      | cons a t => rfl

theorem handleCreateCode_rejected (r : Remote) (c : CreatorDashboardState)
    (chart : List ParticipationRecord → Except String (List (String × Nat)))
    (h : codeRejected c.newCode = true) :
    (handleCreateCode c chart).run r c =
      (.ok (), { ui := { c with error := "Code must be 1-10 alphanumeric characters." },
                 trace := [], console := [], alerts := [] }) := by
  simp [handleCreateCode, H.run, H.set_bind, H.set_apply, H.ite_app, h]

theorem handleCreateCode_accepted (r : Remote) (c : CreatorDashboardState)
    (chart : List ParticipationRecord → Except String (List (String × Nat)))
    (h : codeRejected c.newCode = false) :
    (handleCreateCode c chart).run r c =
      (match handleCreateCodeBody c chart r
          { ui := { c with error := "" }, trace := [], console := [], alerts := [] } with
       | (.ok a, s1) => (.ok a, s1)
       | (.error e, s1) =>
         (.ok (), { s1 with
           ui := { s1.ui with error := "Failed to create code. Please try again." }
           console := s1.console ++ [e] })) := by
  simp only [handleCreateCode, H.run, H.set_bind, H.ite_app, h, H.tryCatch,
    H.consoleError_apply, Bool.false_eq_true, if_false]
  rcases handleCreateCodeBody c chart r _ with ⟨_ | _, s1⟩ <;> rfl

/-- What `loadData` of `CreatorDashboard` adds to a run: it never throws and
never alerts, leaves `error` as it is, issues only reads, stops at the first
rejected call, and logs to the console when a call rejected. -/
theorem CreatorDashboard.loadData_run (c : CreatorDashboardState)
    (chart : List ParticipationRecord → Except String (List (String × Nat)))
    (u : UserRecord) (code : ReferralCodeRecord) (r : Remote) (s : Run CreatorDashboardState) :
    ∃ s1 ext, CreatorDashboard.loadData c chart u code r s = (.ok (), s1) ∧
      s1.trace = s.trace ++ ext ∧ s1.alerts = s.alerts ∧ s1.ui.error = s.ui.error ∧
      (∀ e ∈ ext, e.1.isWrite = false) ∧
      (∀ e ∈ ext.dropLast, e.2 = true) ∧
      ((∃ e ∈ ext, e.2 = false) → s1.console ≠ []) := by
  unfold CreatorDashboard.loadData H.tryCatch
  generalize hres : CreatorDashboard.loadDataBody c chart u code r s = res
  unfold CreatorDashboard.loadDataBody at hres
  cases hreg : c.region with
  | none =>
    simp only [hreg, H.pure_apply] at hres
    subst hres
    exact ⟨_, [], rfl, by simp, rfl, rfl, by simp, by simp, by simp⟩
  | some reg =>
    simp only [hreg, H.await_bind, H.ofExcept_bind] at hres
    (repeat' split at hres) <;> subst hres <;>
    simp only [H.throw_apply, H.set_bind, H.set_apply, H.consoleError_apply,
      List.append_assoc, List.singleton_append, List.nil_append, List.cons_append] <;>
    refine ⟨_, _, rfl, rfl, rfl, rfl, ?_, ?_, ?_⟩ <;>
    simp [Call.isWrite]

/-- The behaviour of `handleCreateCode` on a code that passes the guard. -/
theorem handleCreateCode_accepted_run (r : Remote) (c : CreatorDashboardState)
    (chart : List ParticipationRecord → Except String (List (String × Nat)))
    (h : codeRejected c.newCode = false) :
    ((handleCreateCode c chart).run r c).1 = .ok () ∧
    ((handleCreateCode c chart).run r c).2.alerts = [] ∧
    (calls ((handleCreateCode c chart).run r c).2).head? =
      some (Call.ReferralCode_filter c.newCode) ∧
    stopsAtFailure ((handleCreateCode c chart).run r c).2 ∧
    (someCallFailed ((handleCreateCode c chart).run r c).2 →
      ((handleCreateCode c chart).run r c).2.console ≠ []) ∧
    (∀ existing, r 0 (Call.ReferralCode_filter c.newCode) = .ok existing → existing ≠ [] →
      ((handleCreateCode c chart).run r c).2.trace =
        [(Call.ReferralCode_filter c.newCode, true)] ∧
      ((handleCreateCode c chart).run r c).2.ui =
        { c with error := "This code is already taken. Please choose another." }) ∧
    ((∃ call ∈ calls ((handleCreateCode c chart).run r c).2, call.isReferralCodeCreate = true) →
      r 0 (Call.ReferralCode_filter c.newCode) = .ok []) := by
  rw [handleCreateCode_accepted r c chart h]
  unfold stopsAtFailure someCallFailed
  simp only [handleCreateCodeBody, H.await_bind, List.length_nil]
  cases h0 : r 0 (Call.ReferralCode_filter c.newCode) with
  | error e => simp [calls, Call.isReferralCodeCreate]
  | ok existing =>
    by_cases hex : existing.length > 0
    · have hne : existing ≠ [] := by
        intro h'
        simp [h'] at hex
      simp [hex, H.set_apply, calls, Call.isReferralCodeCreate, H.ite_app]
    · have hnil : existing = [] := by
        cases existing with
        | nil => rfl
        | cons a t => simp at hex
      subst hnil
      cases hu : c.user with
      | none => simp [H.ite_app, H.throw_apply, calls, Call.isReferralCodeCreate]
      | some user =>
        simp only [List.length_nil, gt_iff_lt, lt_self_iff_false, H.ite_app, if_false,
          H.await_bind]
        cases h1 : r ([] ++ [(Call.ReferralCode_filter c.newCode, true)]).length
            (Call.ReferralCode_create user.id c.newCode) with
        | error e => simp [calls, Call.isReferralCodeCreate]
        | ok created =>
          cases hr : c.region with
          | none => simp [H.set_bind, H.ite_app, H.pure_apply, calls, Call.isReferralCodeCreate]
          | some reg =>
            simp only [H.set_bind, Option.isSome_some, if_true, hr]
            generalize hst : (⟨_, _, _, _⟩ : Run CreatorDashboardState) = st
            obtain ⟨s1, ext, hrun, htr, hal, herr, hw, hstop, hcon⟩ :=
              CreatorDashboard.loadData_run c chart user created r st
            rw [hrun]
            subst hst
            simp only [List.nil_append, List.singleton_append] at htr hal herr
            have hext : ∀ call, (call, false) ∈ ext → s1.console ≠ [] :=
              fun call hc => hcon ⟨_, hc, rfl⟩
            refine ⟨rfl, hal, ?_, ?_, ?_, ?_, ?_⟩
            · simp [calls, htr]
            · intro e he
              rw [htr] at he
              cases ext with
              | nil =>
                simp at he
                simp [he]
              | cons x xs =>
                rw [List.dropLast_append_of_ne_nil _ (List.cons_ne_nil x xs)] at he
                rcases List.mem_append.1 he with hm | hm
                · simp at hm
                  rcases hm with hm | hm <;> simp [hm]
                · exact hstop e hm
            · rintro ⟨call, hc⟩
              rw [htr] at hc
              simp at hc
              exact hext call hc
            · intro existing hex2 hne
              simp at hex2
              exact absurd hex2.symm hne
            · intro _
              trivial

/-- C9: the guard of `handleCreateCode` lets a code through exactly when it is
1 to 10 characters long, each an ASCII letter or digit.  A code that passes
is looked up with `ReferralCode.filter` as the first call of the run; for any
other code the run issues no remote call and only sets the error
`Code must be 1-10 alphanumeric characters.`. -/
theorem handleCreateCode_validation (r : Remote) (c : CreatorDashboardState)
    (chart : List ParticipationRecord → Except String (List (String × Nat))) :
    (codeRejected c.newCode = false ↔ validReferralCode c.newCode) ∧
    (validReferralCode c.newCode →
      (calls ((handleCreateCode c chart).run r c).2).head? =
        some (Call.ReferralCode_filter c.newCode)) ∧
    (¬ validReferralCode c.newCode →
      ((handleCreateCode c chart).run r c).2.trace = [] ∧
      ((handleCreateCode c chart).run r c).2.ui =
        { c with error := "Code must be 1-10 alphanumeric characters." }) := by
  refine ⟨codeRejected_eq_false_iff _, ?_, ?_⟩
  · intro hv
    exact (handleCreateCode_accepted_run r c chart
      ((codeRejected_eq_false_iff _).2 hv)).2.2.1
  · intro hv
    have hrej : codeRejected c.newCode = true := by
      cases h : codeRejected c.newCode
      · exact absurd ((codeRejected_eq_false_iff _).1 h) hv
      · rfl
    rw [handleCreateCode_rejected r c chart hrej]
    exact ⟨rfl, rfl⟩

/-- C10: for a valid code, when `ReferralCode.filter(code)` resolves to a
non-empty list the run issues no `ReferralCode.create` (the query is its only
call) and sets the error `This code is already taken. Please choose another.`;
a run that issues `ReferralCode.create` is one whose query resolved to the
empty list. -/
theorem handleCreateCode_uniqueness (r : Remote) (c : CreatorDashboardState)
    (chart : List ParticipationRecord → Except String (List (String × Nat)))
    (hvalid : validReferralCode c.newCode) :
    (∀ existing, r 0 (Call.ReferralCode_filter c.newCode) = .ok existing → existing ≠ [] →
      (∀ call ∈ calls ((handleCreateCode c chart).run r c).2,
        call.isReferralCodeCreate = false) ∧
      ((handleCreateCode c chart).run r c).2.ui =
        { c with error := "This code is already taken. Please choose another." }) ∧
    ((∃ call ∈ calls ((handleCreateCode c chart).run r c).2, call.isReferralCodeCreate = true) →
      r 0 (Call.ReferralCode_filter c.newCode) = .ok []) := by
  have hrun := handleCreateCode_accepted_run r c chart ((codeRejected_eq_false_iff _).2 hvalid)
  refine ⟨?_, hrun.2.2.2.2.2.2⟩
  intro existing hex hne
  obtain ⟨htr, hui⟩ := hrun.2.2.2.2.2.1 existing hex hne
  refine ⟨?_, hui⟩
  intro call hcall
  simp only [calls, htr, List.map_cons, List.map_nil, List.mem_singleton] at hcall
  subst hcall
  rfl

/-- C10 at a concrete input: the code `ann1` is already stored. -/
theorem handleCreateCode_uniqueness_witness :
    (∀ call ∈ calls ((handleCreateCode (creatorPage "ann1") noChart).run takenRemote
        (creatorPage "ann1")).2, call.isReferralCodeCreate = false) ∧
    ((handleCreateCode (creatorPage "ann1") noChart).run takenRemote (creatorPage "ann1")).2.ui =
      { creatorPage "ann1" with
        error := "This code is already taken. Please choose another." } :=
  (handleCreateCode_uniqueness takenRemote (creatorPage "ann1") noChart
    (by unfold validReferralCode; decide)).1 [{ creator_id := "u2", code := "ann1" }] rfl
    (List.cons_ne_nil _ _)


/-! ## Error handling across handlers -/

theorem confirmRegistration_run_eq (r : Remote) (c : GameModePageState) (now : String) :
    (confirmRegistration c now).run r c =
      (.ok (), regFinish (confirmRegistrationBody c now r (regStart c))) := by
  simp only [confirmRegistration, H.run, H.set_bind, H.tryFinally,
    H.tryCatch, regStart, regFinish, H.consoleError_bind, H.set_apply]
  rcases confirmRegistrationBody c now r _ with ⟨_ | _, s1⟩ <;> rfl

theorem confirmRegistration_caught (r : Remote) (c : GameModePageState) (now : String) :
    caughtAndLogged ((confirmRegistration c now).run r c) ∧
    ((confirmRegistration c now).run r c).2.alerts = [] ∧
    (someCallFailed ((confirmRegistration c now).run r c).2 →
      ((confirmRegistration c now).run r c).2.ui.registrationError ≠ "") := by
  unfold caughtAndLogged stopsAtFailure someCallFailed
  rw [confirmRegistration_run_eq]
  generalize hres : confirmRegistrationBody c now r (regStart c) = res
  rcases c with ⟨st, sm, ⟨ign, igu, rc⟩, cs, ir, re, scd, ldc⟩
  cases st <;> cases sm <;>
  simp [confirmRegistrationBody, regStart, H.await_bind, H.set_bind, H.pure_bind, H.bind_assoc,
    H.throw_apply, H.ite_app, H.await_apply, H.set_apply] at hres <;>
  (repeat' split at hres) <;>
  subst hres <;>
  simp [regFinish, caught_message_ne_empty]

theorem createTournament_caught (r : Remote) (c : TournamentManagementState) :
    caughtAndLogged ((createTournament c).run r c) ∧
    ((createTournament c).run r c).2.alerts = [] := by
  unfold caughtAndLogged stopsAtFailure someCallFailed
  simp only [createTournament, H.run, H.tryCatch]
  generalize hres : createTournamentBody c r _ = res
  simp only [createTournamentBody, H.await_bind, H.ofExcept_bind, H.set_bind, H.set_apply]
    at hres
  (repeat' split at hres) <;> subst hres <;> simp [H.consoleError_apply]

theorem handleConfirmWinner_caught (r : Remote) (c : ModeratorDashboardState) :
    caughtAndLogged ((handleConfirmWinner c).run r c) ∧
    (someCallFailed ((handleConfirmWinner c).run r c).2 →
      ((handleConfirmWinner c).run r c).2.alerts =
        ["Failed to process winner. Please try again."]) := by
  unfold caughtAndLogged stopsAtFailure someCallFailed
  rcases c with ⟨st, sw, sd, as, sch⟩
  cases st with
  | none => simp [handleConfirmWinner, H.run, H.alert_apply]
  | some t =>
    by_cases hw : sw = ""
    · simp [handleConfirmWinner, H.run, H.alert_apply, hw]
    · cases h0 : r 0 (Call.processWinnerSelection t.id sw) <;>
      simp [handleConfirmWinner, H.run, H.tryCatch, H.await_bind, H.set_bind, H.set_apply,
        H.consoleError_bind, H.alert_apply, hw, h0]

theorem handleCreateCode_caught (r : Remote) (c : CreatorDashboardState)
    (chart : List ParticipationRecord → Except String (List (String × Nat))) :
    caughtAndLogged ((handleCreateCode c chart).run r c) ∧
    ((handleCreateCode c chart).run r c).2.alerts = [] := by
  cases h : codeRejected c.newCode with
  | true =>
    rw [handleCreateCode_rejected r c chart h]
    unfold caughtAndLogged stopsAtFailure someCallFailed
    simp
  | false =>
    have hrun := handleCreateCode_accepted_run r c chart h
    exact ⟨⟨hrun.1, hrun.2.2.2.1, hrun.2.2.2.2.1⟩, hrun.2.1⟩

theorem H.bind_apply {σ α β : Type} (x : H σ α) (f : α → H σ β) (r : Remote) (s : Run σ) :
    (x >>= f) r s = (match x r s with
      | (.ok a, s1) => f a r s1
      | (.error e, s1) => (.error e, s1)) := by
  show H.bind x f r s = _
  unfold H.bind
  rcases x r s with ⟨_ | _, _⟩ <;> rfl

theorem deleteTournament_rejected (r : Remote) (c : TournamentManagementState) (id msg : String)
    (h : r 0 (Call.Tournament_delete id) = .error msg) :
    (deleteTournament id true).run r c =
      (.error msg, { ui := c, trace := [(Call.Tournament_delete id, false)],
                     console := [], alerts := [] }) := by
  simp [deleteTournament, H.run, H.await_bind, H.ite_app, h]

theorem loadNotifications_rejected (r : Remote) (c : NotificationsState) (u : UserRecord)
    (msg : String) (hu : c.user = some u)
    (h : r 0 (Call.Notification_filter u.id "-created_date" 10) = .error msg) :
    (loadNotifications c).run r c =
      (.error msg, { ui := c, trace := [(Call.Notification_filter u.id "-created_date" 10, false)],
                     console := [], alerts := [] }) := by
  simp [loadNotifications, H.run, H.await_bind, hu, h]

theorem handleMarkAsRead_rejected (r : Remote) (c : NotificationsState) (id msg : String)
    (h : r 0 (Call.Notification_update id true) = .error msg) :
    (handleMarkAsRead c id).run r c =
      (.error msg, { ui := c, trace := [(Call.Notification_update id true, false)],
                     console := [], alerts := [] }) := by
  simp [handleMarkAsRead, H.run, H.await_bind, h]

/-- What `loadNotifications` adds to a run: only `Notification.filter` calls,
no console output and no alert. -/
theorem loadNotifications_adds (r : Remote) (c : NotificationsState)
    (s : Run NotificationsState) :
    (loadNotifications c r s).2.console = s.console ∧
    (loadNotifications c r s).2.alerts = s.alerts ∧
    ∀ e ∈ (loadNotifications c r s).2.trace,
      e ∈ s.trace ∨ ∃ a b n, e.1 = Call.Notification_filter a b n := by
  unfold loadNotifications
  cases hu : c.user with
  | none =>
    exact ⟨rfl, rfl, fun e he => Or.inl he⟩
  | some u =>
    simp only [H.await_bind]
    split <;>
    simp only [H.set_bind, H.set_apply, List.mem_append, List.mem_singleton, true_and] <;>
    intro e he <;>
    rcases he with he | he <;>
    first
      | exact Or.inl he
      | exact Or.inr ⟨_, _, _, congrArg Prod.fst he⟩

/-- What `Promise.all` over discarded calls adds to a run: no console output,
no alert; it rejects when one of its calls rejected, and when it resolves
every call it added resolved. -/
theorem awaitAll_adds {σ : Type} (cs : List Call) (r : Remote) (s : Run σ) :
    (H.awaitAll cs r s).2.console = s.console ∧
    (H.awaitAll cs r s).2.alerts = s.alerts ∧
    ((H.awaitAll cs r s).1 = .ok () →
      ∀ e ∈ (H.awaitAll cs r s).2.trace, e ∈ s.trace ∨ e.2 = true) ∧
    ((H.awaitAll cs r s).1 = .ok () ∨ ∃ msg, (H.awaitAll cs r s).1 = .error msg) := by
  induction cs generalizing s with
  | nil => simp [H.awaitAll]
  | cons c cs ih =>
    simp only [H.awaitAll, H.await_apply]
    cases h : r s.trace.length c with
    | error e =>
      simp only
      have := ih { s with trace := s.trace ++ [(c, false)] }
      refine ⟨this.1, this.2.1, ?_, Or.inr ⟨e, rfl⟩⟩
      intro hcontra
      cases hcontra
    | ok a =>
      simp only
      have := ih { s with trace := s.trace ++ [(c, true)] }
      refine ⟨this.1, this.2.1, ?_, this.2.2.2⟩
      intro hok e he
      rcases this.2.2.1 hok e he with h1 | h1
      · simp only [List.mem_append, List.mem_singleton] at h1
        rcases h1 with h1 | h1
        · exact Or.inl h1
        · right
          rw [h1]
      · exact Or.inr h1

theorem handleClearAll_propagates (r : Remote) (c : NotificationsState) :
    silent ((handleClearAll c).run r c).2 ∧
    ((∃ id b, (Call.Notification_update id b, false) ∈ ((handleClearAll c).run r c).2.trace) →
      ∃ msg, ((handleClearAll c).run r c).1 = .error msg) := by
  unfold silent
  simp only [handleClearAll, H.run]
  generalize (List.map (fun id => Call.Notification_update id true) _) = cs
  generalize hs0 : (⟨c, [], [], []⟩ : Run NotificationsState) = s0
  have hA := awaitAll_adds cs r s0
  rw [H.bind_apply]
  rcases hres : H.awaitAll cs r s0 with ⟨res, s1⟩
  rw [hres] at hA
  have hL := loadNotifications_adds r c s1
  cases res with
  | error e =>
    simp only
    subst hs0
    exact ⟨⟨hA.1, hA.2.1⟩, fun _ => ⟨e, rfl⟩⟩
  | ok a =>
    simp only [H.detached]
    subst hs0
    refine ⟨⟨hL.1.trans hA.1, hL.2.1.trans hA.2.1⟩, ?_⟩
    rintro ⟨id, b, hmem⟩
    exfalso
    rcases hL.2.2 _ hmem with h1 | ⟨x, y, n, h1⟩
    · rcases hA.2.2.1 rfl _ h1 with h2 | h2
      · simp at h2
      · simp at h2
    · simp at h1

theorem generateAndSetUniqueGameCode_caught (r : Remote) (c : GameManagementState) :
    caughtAndLogged (generateAndSetUniqueGameCode.run r c) ∧
    (someCallFailed (generateAndSetUniqueGameCode.run r c).2 →
      (generateAndSetUniqueGameCode.run r c).2.alerts =
        ["Failed to generate a unique game code. Please try again."]) := by
  unfold caughtAndLogged stopsAtFailure someCallFailed
  simp only [generateAndSetUniqueGameCode, H.run, H.tryCatch]
  generalize hres : generateAndSetUniqueGameCodeBody r _ = res
  simp only [generateAndSetUniqueGameCodeBody, H.await_bind, H.ofExcept_bind, H.set_apply]
    at hres
  (repeat' split at hres) <;> subst hres <;>
  simp [H.consoleError_bind, H.alert_bind, H.set_apply]

theorem createGame_caught (r : Remote) (c : GameManagementState) :
    caughtAndLogged ((createGame c).run r c) ∧
    (someCallFailed ((createGame c).run r c).2 →
      ((createGame c).run r c).2.alerts = ["Failed to create game. Please try again."]) := by
  unfold caughtAndLogged stopsAtFailure someCallFailed
  by_cases hc : c.game_code = ""
  · simp [createGame, H.run, H.tryCatch, H.ite_app, H.alert_apply, hc]
  · cases h0 : r 0 (Call.Game_create c.game_code c.selectedRegion) <;>
    simp [createGame, H.run, H.tryCatch, H.ite_app, H.await_bind, H.set_bind, H.set_apply,
      H.consoleError_bind, H.alert_apply, hc, h0]

theorem handleUpdateUser_caught (r : Remote) (c : UserManagementState) :
    caughtAndLogged ((handleUpdateUser c).run r c) ∧
    (someCallFailed ((handleUpdateUser c).run r c).2 →
      ((handleUpdateUser c).run r c).2.alerts =
        ["Failed to update user role. Your plan may not support this feature " ++
          "or there was a server error."]) := by
  unfold caughtAndLogged stopsAtFailure someCallFailed handleUpdateUser
  cases hu : c.editingUser with
  | none => simp [H.run, H.pure_apply]
  | some uid =>
    simp only [H.run, H.tryCatch]
    generalize hres : (H.await (Call.User_update uid (updatePayload c.formData)) >>= _) r _ = res
    simp only [H.await_bind, H.set_bind, H.set_apply, List.length_nil] at hres
    (repeat' split at hres) <;> subst hres <;>
    simp [H.consoleError_bind, H.alert_apply]

theorem deleteGame_caught (r : Remote) (c : GameManagementState) (id : String)
    (confirmed : Bool) :
    caughtAndLogged ((deleteGame id confirmed).run r c) ∧
    ((deleteGame id confirmed).run r c).2.alerts = [] := by
  unfold caughtAndLogged stopsAtFailure someCallFailed
  cases confirmed with
  | false => simp [deleteGame, H.run, H.pure_apply]
  | true =>
    cases h0 : r 0 (Call.Game_delete id) <;>
    simp [deleteGame, H.run, H.tryCatch, H.await_bind, H.set_apply, H.consoleError_apply, h0]

theorem handleDeleteUser_caught (r : Remote) (c : UserManagementState) (id : String)
    (confirmed : Bool) :
    caughtAndLogged ((handleDeleteUser id confirmed).run r c) ∧
    (someCallFailed ((handleDeleteUser id confirmed).run r c).2 →
      ((handleDeleteUser id confirmed).run r c).2.alerts =
        ["Failed to delete user. There was a server error."]) := by
  unfold caughtAndLogged stopsAtFailure someCallFailed
  cases confirmed with
  | false => simp [handleDeleteUser, H.run, H.pure_apply]
  | true =>
    cases h0 : r 0 (Call.User_delete id) <;>
    simp [handleDeleteUser, H.run, H.tryCatch, H.await_bind, H.set_apply,
      H.consoleError_bind, H.alert_apply, h0]

theorem region_handleDelete_caught (r : Remote) (c : ListState) (id : String)
    (confirmed : Bool) :
    caughtAndLogged ((RegionManagement.handleDelete id confirmed).run r c) ∧
    (someCallFailed ((RegionManagement.handleDelete id confirmed).run r c).2 →
      ((RegionManagement.handleDelete id confirmed).run r c).2.alerts =
        ["Failed to delete region."]) := by
  unfold caughtAndLogged stopsAtFailure someCallFailed
  cases confirmed with
  | false => simp [RegionManagement.handleDelete, H.run, H.pure_apply]
  | true =>
    cases h0 : r 0 (Call.Region_delete id) <;>
    simp [RegionManagement.handleDelete, H.run, H.tryCatch, H.await_bind, H.set_apply,
      H.consoleError_bind, H.alert_apply, h0]

theorem gameMode_handleDelete_caught (r : Remote) (c : ListState) (id : String)
    (confirmed : Bool) :
    caughtAndLogged ((GameModeManagement.handleDelete id confirmed).run r c) ∧
    (someCallFailed ((GameModeManagement.handleDelete id confirmed).run r c).2 →
      ((GameModeManagement.handleDelete id confirmed).run r c).2.alerts =
        ["Failed to delete game mode."]) := by
  unfold caughtAndLogged stopsAtFailure someCallFailed
  cases confirmed with
  | false => simp [GameModeManagement.handleDelete, H.run, H.pure_apply]
  | true =>
    cases h0 : r 0 (Call.GameMode_delete id) <;>
    simp [GameModeManagement.handleDelete, H.run, H.tryCatch, H.await_bind, H.set_apply,
      H.consoleError_bind, H.alert_apply, h0]

theorem template_handleDelete_caught (r : Remote) (c : ListState)
    (id : String) (confirmed : Bool) :
    caughtAndLogged ((TournamentTemplateManagement.handleDelete id confirmed).run r c) ∧
    ((TournamentTemplateManagement.handleDelete id confirmed).run r c).2.alerts = [] := by
  unfold caughtAndLogged stopsAtFailure someCallFailed
  cases confirmed with
  | false => simp [TournamentTemplateManagement.handleDelete, H.run, H.pure_apply]
  | true =>
    cases h0 : r 0 (Call.TournamentTemplate_delete id) <;>
    simp [TournamentTemplateManagement.handleDelete, H.run, H.tryCatch, H.await_bind,
      H.set_apply, H.consoleError_apply, h0]

/-- C8, the claim as stated fails: `confirmRegistration` reports a failure
through the `registrationError` state rendered in the dialog, not through
`alert()`.  When `Participation.create` rejects on the template page, the
handler catches the rejection, logs it and sets `registrationError`; no alert
is shown. -/
theorem confirmRegistration_failure_shows_no_alert :
    ((confirmRegistration templatePage "2025-01-02T00:00:00.000Z").run
      (failAt 4 "write refused" sampleRemote) templatePage).1 = .ok () ∧
    ((confirmRegistration templatePage "2025-01-02T00:00:00.000Z").run
      (failAt 4 "write refused" sampleRemote) templatePage).2.console =
        ["Registration failed: write refused"] ∧
    ((confirmRegistration templatePage "2025-01-02T00:00:00.000Z").run
      (failAt 4 "write refused" sampleRemote) templatePage).2.ui.registrationError =
        "write refused" ∧
    ((confirmRegistration templatePage "2025-01-02T00:00:00.000Z").run
      (failAt 4 "write refused" sampleRemote) templatePage).2.alerts = [] :=
  ⟨rfl, by decide, by decide, rfl⟩

/-- C8, amended: the handlers that wrap their remote calls in `try`/`catch`
(`confirmRegistration`, `createTournament`, `handleCreateCode`,
`handleConfirmWinner`, `generateAndSetUniqueGameCode`, `createGame`,
`handleUpdateUser`, `deleteGame`, `handleDeleteUser` and the `handleDelete` of
the region, game-mode and template components) complete normally whatever
the backend does, issue no call after a rejected one (no retry, no cleanup
call), and write to the console when a call rejected.  What the user is shown
differs: `handleConfirmWinner`, `generateAndSetUniqueGameCode`, `createGame`,
`handleUpdateUser`, `handleDeleteUser` and the region and game-mode
`handleDelete` show their alert; `confirmRegistration` sets
`registrationError` and shows no alert; `createTournament`, `handleCreateCode`,
`deleteGame` and the template `handleDelete` show no alert. -/
theorem error_handling_by_handler :
    (∀ (r : Remote) (c : GameModePageState) (now : String),
      caughtAndLogged ((confirmRegistration c now).run r c) ∧
      ((confirmRegistration c now).run r c).2.alerts = [] ∧
      (someCallFailed ((confirmRegistration c now).run r c).2 →
        ((confirmRegistration c now).run r c).2.ui.registrationError ≠ "")) ∧
    (∀ (r : Remote) (c : TournamentManagementState),
      caughtAndLogged ((createTournament c).run r c) ∧
      ((createTournament c).run r c).2.alerts = []) ∧
    (∀ (r : Remote) (c : CreatorDashboardState)
        (chart : List ParticipationRecord → Except String (List (String × Nat))),
      caughtAndLogged ((handleCreateCode c chart).run r c) ∧
      ((handleCreateCode c chart).run r c).2.alerts = []) ∧
    (∀ (r : Remote) (c : ModeratorDashboardState),
      caughtAndLogged ((handleConfirmWinner c).run r c) ∧
      (someCallFailed ((handleConfirmWinner c).run r c).2 →
        ((handleConfirmWinner c).run r c).2.alerts =
          ["Failed to process winner. Please try again."])) ∧
    (∀ (r : Remote) (c : GameManagementState),
      caughtAndLogged (generateAndSetUniqueGameCode.run r c) ∧
      (someCallFailed (generateAndSetUniqueGameCode.run r c).2 →
        (generateAndSetUniqueGameCode.run r c).2.alerts =
          ["Failed to generate a unique game code. Please try again."])) ∧
    (∀ (r : Remote) (c : GameManagementState),
      caughtAndLogged ((createGame c).run r c) ∧
      (someCallFailed ((createGame c).run r c).2 →
        ((createGame c).run r c).2.alerts = ["Failed to create game. Please try again."])) ∧
    (∀ (r : Remote) (c : UserManagementState),
      caughtAndLogged ((handleUpdateUser c).run r c) ∧
      (someCallFailed ((handleUpdateUser c).run r c).2 →
        ((handleUpdateUser c).run r c).2.alerts =
          ["Failed to update user role. Your plan may not support this feature " ++
            "or there was a server error."])) ∧
    (∀ (r : Remote) (c : GameManagementState) (id : String) (confirmed : Bool),
      caughtAndLogged ((deleteGame id confirmed).run r c) ∧
      ((deleteGame id confirmed).run r c).2.alerts = []) ∧
    (∀ (r : Remote) (c : UserManagementState) (id : String) (confirmed : Bool),
      caughtAndLogged ((handleDeleteUser id confirmed).run r c) ∧
      (someCallFailed ((handleDeleteUser id confirmed).run r c).2 →
        ((handleDeleteUser id confirmed).run r c).2.alerts =
          ["Failed to delete user. There was a server error."])) ∧
    (∀ (r : Remote) (c : ListState) (id : String) (confirmed : Bool),
      caughtAndLogged ((RegionManagement.handleDelete id confirmed).run r c) ∧
      (someCallFailed ((RegionManagement.handleDelete id confirmed).run r c).2 →
        ((RegionManagement.handleDelete id confirmed).run r c).2.alerts =
          ["Failed to delete region."])) ∧
    (∀ (r : Remote) (c : ListState) (id : String) (confirmed : Bool),
      caughtAndLogged ((GameModeManagement.handleDelete id confirmed).run r c) ∧
      (someCallFailed ((GameModeManagement.handleDelete id confirmed).run r c).2 →
        ((GameModeManagement.handleDelete id confirmed).run r c).2.alerts =
          ["Failed to delete game mode."])) ∧
    (∀ (r : Remote) (c : ListState) (id : String) (confirmed : Bool),
      caughtAndLogged ((TournamentTemplateManagement.handleDelete id confirmed).run r c) ∧
      ((TournamentTemplateManagement.handleDelete id confirmed).run r c).2.alerts = []) :=
  ⟨confirmRegistration_caught, createTournament_caught, handleCreateCode_caught,
    handleConfirmWinner_caught, generateAndSetUniqueGameCode_caught, createGame_caught,
    handleUpdateUser_caught, deleteGame_caught, handleDeleteUser_caught,
    region_handleDelete_caught, gameMode_handleDelete_caught,
    template_handleDelete_caught⟩

/-! ## Decimal rendering of natural numbers -/

/-- A character is one of `0` ... `9`. -/
theorem digitChar_isDigit (d : Nat) (h : d < 10) : (Nat.digitChar d).isDigit = true := by
  interval_cases d <;> decide

theorem digitChar_toNat (d : Nat) (h : d < 10) : (Nat.digitChar d).toNat = 48 + d := by
  interval_cases d <;> decide

theorem toDigitsCore_append (f n : Nat) (ds : List Char) :
    Nat.toDigitsCore 10 f n ds = Nat.toDigitsCore 10 f n [] ++ ds := by
  induction f generalizing n ds with
  | zero => simp [Nat.toDigitsCore]
  | succ f ih =>
    simp only [Nat.toDigitsCore]
    split
    · simp
    · rw [ih (n / 10) (Nat.digitChar (n % 10) :: ds), ih (n / 10) [Nat.digitChar (n % 10)]]
      simp

/-- One step of the rendering: the digits of `n / 10` followed by the last
digit. -/
theorem toDigitsCore_succ (f n : Nat) :
    Nat.toDigitsCore 10 (f + 1) n [] =
      if n / 10 = 0 then [Nat.digitChar (n % 10)]
      else Nat.toDigitsCore 10 f (n / 10) [] ++ [Nat.digitChar (n % 10)] := by
  simp only [Nat.toDigitsCore]
  split
  · rfl
  · rw [toDigitsCore_append]

theorem toDigitsCore_all_digits (f n : Nat) :
    ∀ ch ∈ Nat.toDigitsCore 10 f n [], ch.isDigit = true := by
  induction f generalizing n with
  | zero => simp [Nat.toDigitsCore]
  | succ f ih =>
    rw [toDigitsCore_succ]
    intro ch hch
    split at hch
    · simp only [List.mem_singleton] at hch
      rw [hch]
      exact digitChar_isDigit _ (Nat.mod_lt _ (by decide))
    · rcases List.mem_append.1 hch with h | h
      · exact ih _ ch h
      · simp only [List.mem_singleton] at h
        rw [h]
        exact digitChar_isDigit _ (Nat.mod_lt _ (by decide))

theorem toString_data (n : Nat) : (toString n).data = Nat.toDigits 10 n := rfl

theorem toString_all_digits (n : Nat) : ∀ ch ∈ (toString n).data, ch.isDigit = true := by
  rw [toString_data]
  exact toDigitsCore_all_digits _ _

/-! ## `formatUserId` -/

theorem hashStep_eq (h : Int) (c : Nat) : hashStep h c = toInt32 (h * 31 + c) := by
  unfold hashStep toInt32
  omega

/-- The conversion `ToInt32` lands in the 32-bit range. -/
theorem toInt32_range (x : Int) : -2147483648 ≤ toInt32 x ∧ toInt32 x ≤ 2147483647 := by
  unfold toInt32
  omega

/-- The conversion `ToInt32` changes its argument by a multiple of 2^32. -/
theorem toInt32_congr (x : Int) : (toInt32 x - x) % 4294967296 = 0 := by
  unfold toInt32
  omega

theorem foldl_hashStep_range (units : List Nat) (init : Int)
    (h : -2147483648 ≤ init ∧ init ≤ 2147483647) :
    -2147483648 ≤ units.foldl hashStep init ∧ units.foldl hashStep init ≤ 2147483647 := by
  induction units generalizing init with
  | nil => exact h
  | cons u t ih => exact ih _ (toInt32_range _)

/-- The hash is a 32-bit integer whatever the id. -/
theorem hashOf_range (id : String) : -2147483648 ≤ hashOf id ∧ hashOf id ≤ 2147483647 :=
  foldl_hashStep_range _ 0 (by decide)

theorem formatUserId_data (id : String) (h : id ≠ "") :
    (formatUserId (some id)).data =
      ['1', '0'] ++ (toString (hashOf id).natAbs).data.take 9 ++
        List.replicate (11 - (2 + ((toString (hashOf id).natAbs).data.take 9).length)) '0' := by
  simp only [formatUserId, h, if_false, padEnd11, slice9, String.data_append, String.length,
    List.length_append]
  have e : ∀ l : List Char, ("10".append ⟨l⟩).data.length = 2 + l.length := by
    intro l
    show (['1', '0'] ++ l).length = 2 + l.length
    simp only [List.length_append, List.length_cons, List.length_nil]
  rw [e]

/-- C11: for a non-empty id the result of `formatUserId` has exactly 11
characters, all of them decimal digits, the first two being `10`; it is the
string `10`, then the first 9 (or fewer) decimal digits of the absolute value
of the hash, then zeros up to 11 characters.  The hash is a 32-bit integer:
each step of the loop is `hash * 31 + charCode` wrapped into the range
-2^31 .. 2^31 - 1 (it differs from `hash * 31 + charCode` by a multiple of
2^32), so the absolute value is at most 2^31 and prints as at most 10 plain
decimal digits.  For an empty or missing id the result is the empty string. -/
theorem formatUserId_shape (id : String) :
    (id ≠ "" →
      (formatUserId (some id)).length = 11 ∧
      (∀ ch ∈ (formatUserId (some id)).data, ch.isDigit = true) ∧
      (formatUserId (some id)).data.take 2 = ['1', '0'] ∧
      formatUserId (some id) =
        "10" ++ String.mk ((toString (hashOf id).natAbs).data.take 9) ++
          String.mk (List.replicate
            (11 - (2 + ((toString (hashOf id).natAbs).data.take 9).length)) '0')) ∧
    (-2147483648 ≤ hashOf id ∧ hashOf id ≤ 2147483647) ∧
    (hashOf id).natAbs ≤ 2147483648 ∧
    (toString (hashOf id).natAbs).length ≤ 10 ∧
    (∀ (hash : Int) (char : Nat),
      hashStep hash char = toInt32 (hash * 31 + char) ∧
      -2147483648 ≤ hashStep hash char ∧ hashStep hash char ≤ 2147483647 ∧
      (hashStep hash char - (hash * 31 + char)) % 4294967296 = 0) ∧
    hashOf id = (utf16Units id).foldl hashStep 0 ∧
    formatUserId (some "") = "" ∧
    formatUserId none = "" := by
  have hrange := hashOf_range id
  have habs : (hashOf id).natAbs ≤ 2147483648 := by omega
  refine ⟨?_, hrange, habs, ?_, ?_, rfl, rfl, rfl⟩
  · intro h
    have hd := formatUserId_data id h
    have hdig : ∀ ch ∈ (toString (hashOf id).natAbs).data, ch.isDigit = true :=
      toString_all_digits _
    generalize (toString (hashOf id).natAbs).data = t at hd hdig
    refine ⟨?_, ?_, ?_, ?_⟩
    · rw [String.length, hd]
      simp only [List.length_append, List.length_cons, List.length_nil, List.length_replicate,
        List.length_take]
      omega
    · intro ch hch
      rw [hd] at hch
      simp only [List.mem_append, List.mem_cons, List.mem_replicate] at hch
      rcases hch with (h1 | h1) | h1
      · rcases h1 with h1 | h1 | h1
        · rw [h1]; decide
        · rw [h1]; decide
        · simp at h1
      · exact hdig ch (List.mem_of_mem_take h1)
      · rw [h1.2]; decide
    · rw [hd]
      rfl
    · apply String.ext
      rw [hd]
      rfl
  · exact Nat.repr_length _ 10 (by decide) (by omega)
  · intro hash char
    refine ⟨hashStep_eq hash char, (toInt32_range _).1, (toInt32_range _).2, ?_⟩
    rw [hashStep_eq]
    exact toInt32_congr _

set_option maxRecDepth 100000 in
/-- C11 at a concrete input: the 24-character id `6866d52a3515e74b54793109`
overflows 32 bits on the way and hashes to -1612817840; the result keeps 9 of
the 10 digits of 1612817840. -/
theorem formatUserId_shape_witness :
    hashOf "6866d52a3515e74b54793109" = -1612817840 ∧
    formatUserId (some "6866d52a3515e74b54793109") = "10161281784" ∧
    (formatUserId (some "6866d52a3515e74b54793109")).length = 11 ∧
    (∀ ch ∈ (formatUserId (some "6866d52a3515e74b54793109")).data, ch.isDigit = true) ∧
    (formatUserId (some "6866d52a3515e74b54793109")).data.take 2 = ['1', '0'] ∧
    (hashOf "6866d52a3515e74b54793109").natAbs ≤ 2147483648 :=
  ⟨by decide, by decide,
    ((formatUserId_shape "6866d52a3515e74b54793109").1 (by decide)).1,
    ((formatUserId_shape "6866d52a3515e74b54793109").1 (by decide)).2.1,
    ((formatUserId_shape "6866d52a3515e74b54793109").1 (by decide)).2.2.1,
    (formatUserId_shape "6866d52a3515e74b54793109").2.2.1⟩

/-! ## `generateAndSetUniqueGameCode` -/

theorem toString_length_three (i : Nat) (h1 : 100 ≤ i) (h2 : i ≤ 999) :
    (toString i).length = 3 := by
  obtain ⟨k, rfl⟩ : ∃ k, i = k + 100 := ⟨i - 100, by omega⟩
  rw [String.length, toString_data, Nat.toDigits,
    show k + 100 + 1 = (k + 98) + 1 + 1 + 1 from by omega, toDigitsCore_succ,
    if_neg (by omega), toDigitsCore_succ, if_neg (by omega), toDigitsCore_succ,
    if_pos (by omega)]
  rfl

theorem padStart3_toString (i : Nat) (h1 : 100 ≤ i) (h2 : i ≤ 999) :
    padStart3 (toString i) = toString i := by
  unfold padStart3
  rw [toString_length_three i h1 h2]
  rfl

theorem mem_existingCodes (allGames : List GameRecord) (code : String) :
    code ∈ existingCodes allGames ↔
      code ≠ "" ∧ ∃ g ∈ allGames, g.game_code = some code := by
  unfold existingCodes
  simp only [List.mem_filterMap, List.mem_map]
  constructor
  · rintro ⟨x, ⟨g, hg, rfl⟩, hx⟩
    cases hc : g.game_code with
    | none => simp [hc] at hx
    | some s =>
      simp only [hc] at hx
      split at hx
      · injection hx with hx
        subst hx
        exact ⟨by assumption, g, hg, hc⟩
      · cases hx
  · rintro ⟨hne, g, hg, hc⟩
    exact ⟨some code, ⟨g, hg, hc⟩, by simp [hne]⟩

/-- The first element of a range that satisfies a test. -/
theorem find_range_first (p : Nat → Bool) (n a i : Nat) (hi : a ≤ i) (hin : i < a + n)
    (hp : p i = true) (hmin : ∀ j, a ≤ j → j < i → p j = false) :
    (List.range' a n).find? p = some i := by
  induction n generalizing a with
  | zero => omega
  | succ n ih =>
    rw [List.range'_succ]
    by_cases hai : a = i
    · subst hai
      simp [hp]
    · rw [List.find?_cons_of_neg _ (by simp [hmin a (le_refl a) (by omega)])]
      exact ih (a + 1) (by omega) (by omega) (fun j hj hji => hmin j (by omega) hji)

theorem firstFreeCode_some (codes : List String) (i : Nat) (h1 : 101 ≤ i) (h2 : i ≤ 999)
    (hfree : toString i ∉ codes) (hmin : ∀ j, 101 ≤ j → j < i → toString j ∈ codes) :
    firstFreeCode codes = .ok (toString i) := by
  unfold firstFreeCode
  rw [List.find?_map,
    find_range_first _ 899 101 i h1 (by omega)
      (by simp [padStart3_toString i (by omega) h2, hfree])
      (fun j hj hji => by
        simp [padStart3_toString j (by omega) (by omega), hmin j hj hji])]
  simp [padStart3_toString i (by omega) h2]

theorem firstFreeCode_none (codes : List String)
    (hall : ∀ j, 101 ≤ j → j ≤ 999 → toString j ∈ codes) :
    firstFreeCode codes = .error "No available game codes" := by
  unfold firstFreeCode
  have hnone : ((List.range' 101 899).map (fun i => padStart3 (toString i))).find?
      (fun code => !codes.contains code) = none := by
    rw [List.find?_eq_none]
    intro code hcode
    simp only [List.mem_map, List.mem_range'_1] at hcode
    obtain ⟨j, ⟨hj1, hj2⟩, rfl⟩ := hcode
    simp [padStart3_toString j (by omega) (by omega), hall j hj1 (by omega)]
  rw [hnone]

theorem generateAndSetUniqueGameCode_run (r : Remote) (c : GameManagementState)
    (allGames : List GameRecord) (hlist : r 0 Call.Game_list = .ok allGames) :
    (generateAndSetUniqueGameCode.run r c).2 =
      (match firstFreeCode (existingCodes allGames) with
       | .ok code =>
         { ui := { c with game_code := code }, trace := [(Call.Game_list, true)],
           console := [], alerts := [] }
       | .error message =>
         { ui := { c with game_code := "" }, trace := [(Call.Game_list, true)],
           console := ["Error generating game code: " ++ message],
           alerts := ["Failed to generate a unique game code. Please try again."] }) := by
  simp only [generateAndSetUniqueGameCode, generateAndSetUniqueGameCodeBody, H.run, H.tryCatch,
    H.await_bind, H.ofExcept_bind, List.length_nil, hlist]
  cases firstFreeCode (existingCodes allGames) <;> rfl

theorem createGame_without_code (r : Remote) (c : GameManagementState)
    (h : c.game_code = "") :
    ((createGame c).run r c).2.trace = [] ∧
    ((createGame c).run r c).2.alerts =
      ["A unique game code is required. Please try opening the dialog again."] := by
  simp [createGame, H.run, H.tryCatch, H.ite_app, H.alert_apply, h]

/-- C12: when `Game.list()` resolves to `allGames`, the code set by
`generateAndSetUniqueGameCode` is the decimal string of the smallest `i` in
101..999 that is not the `game_code` of an existing game; it has 3 characters
and differs from every existing `game_code`.  When every code 101..999 is
taken, `game_code` is set to the empty string, and `createGame` run from that
state issues no remote call. -/
theorem generateAndSetUniqueGameCode_unique (r : Remote) (c : GameManagementState)
    (allGames : List GameRecord) (hlist : r 0 Call.Game_list = .ok allGames) :
    (∀ i, 101 ≤ i → i ≤ 999 →
      (∀ g ∈ allGames, g.game_code ≠ some (toString i)) →
      (∀ j, 101 ≤ j → j < i → ∃ g ∈ allGames, g.game_code = some (toString j)) →
      (generateAndSetUniqueGameCode.run r c).2.ui = { c with game_code := toString i } ∧
      (toString i).length = 3 ∧
      ∀ g ∈ allGames,
        g.game_code ≠ some (generateAndSetUniqueGameCode.run r c).2.ui.game_code) ∧
    ((∀ i, 101 ≤ i → i ≤ 999 → ∃ g ∈ allGames, g.game_code = some (toString i)) →
      (generateAndSetUniqueGameCode.run r c).2.ui = { c with game_code := "" } ∧
      ∀ r2, ((createGame (generateAndSetUniqueGameCode.run r c).2.ui).run r2
        (generateAndSetUniqueGameCode.run r c).2.ui).2.trace = []) := by
  have hne : ∀ j, 101 ≤ j → j ≤ 999 → toString j ≠ "" := by
    intro j h1 h2 h
    have := toString_length_three j (by omega) h2
    rw [h] at this
    cases this
  rw [generateAndSetUniqueGameCode_run r c allGames hlist]
  constructor
  · intro i h1 h2 hfree hmin
    have hcode : firstFreeCode (existingCodes allGames) = .ok (toString i) := by
      apply firstFreeCode_some _ i h1 h2
      · rw [mem_existingCodes]
        rintro ⟨-, g, hg, hc⟩
        exact hfree g hg hc
      · intro j hj hji
        rw [mem_existingCodes]
        exact ⟨hne j hj (by omega), hmin j hj hji⟩
    rw [hcode]
    exact ⟨rfl, toString_length_three i (by omega) h2, hfree⟩
  · intro hall
    have hcode : firstFreeCode (existingCodes allGames) = .error "No available game codes" := by
      apply firstFreeCode_none
      intro j hj1 hj2
      rw [mem_existingCodes]
      exact ⟨hne j hj1 hj2, hall j hj1 hj2⟩
    rw [hcode]
    refine ⟨rfl, fun r2 => ?_⟩
    exact (createGame_without_code r2 _ rfl).1

/-- C12 at a concrete input: the codes 101 and 102 are taken, 103 is set. -/
theorem generateAndSetUniqueGameCode_unique_witness :
    (generateAndSetUniqueGameCode.run gamesRemote gamePage).2.ui =
      { gamePage with game_code := "103" } ∧
    (toString 103).length = 3 ∧
    ∀ g ∈ twoGames,
      g.game_code ≠ some (generateAndSetUniqueGameCode.run gamesRemote gamePage).2.ui.game_code :=
  (generateAndSetUniqueGameCode_unique gamesRemote gamePage twoGames rfl).1 103 (by decide)
    (by decide) (by decide)
    (fun j h1 h2 => by
      have hj : j = 101 ∨ j = 102 := by omega
      rcases hj with rfl | rfl
      · exact ⟨{ id := "g1", game_code := some "101" }, by decide, rfl⟩
      · exact ⟨{ id := "g2", game_code := some "102" }, by decide, rfl⟩)


/-! ## `createTournament`: the custom tournament id -/

theorem isDigit_iff_toNat (ch : Char) :
    ch.isDigit = true ↔ 48 ≤ ch.toNat ∧ ch.toNat ≤ 57 := by
  have h2 : ∀ a b : UInt32, a ≥ b ↔ b.toNat ≤ a.toNat := fun a b => Iff.rfl
  have h1 : ∀ a b : UInt32, a ≤ b ↔ a.toNat ≤ b.toNat := fun a b => Iff.rfl
  simp only [Char.isDigit, Bool.and_eq_true, decide_eq_true_eq, h1, h2, Char.toNat]
  have e5 : (48 : UInt32).toNat = 48 := rfl
  have e6 : (57 : UInt32).toNat = 57 := rfl
  rw [e5, e6]

theorem utf16Units_append (a b : String) :
    utf16Units (a ++ b) = utf16Units a ++ utf16Units b := by
  simp only [utf16Units, String.data_append, List.flatMap_append]

theorem utf16Units_length (s : String) : (utf16Units s).length = jsLength s := by
  unfold utf16Units jsLength
  induction s.data with
  | nil => rfl
  | cons ch t ih =>
    simp only [List.flatMap_cons, List.length_append, List.map_cons, List.sum_cons, ih]
    split <;> rfl

theorem utf16Units_of_digits (l : List Char) (h : ∀ ch ∈ l, ch.isDigit = true) :
    utf16Units (String.mk l) = l.map Char.toNat := by
  unfold utf16Units
  induction l with
  | nil => rfl
  | cons ch t ih =>
    have hch := (isDigit_iff_toNat ch).1 (h ch (List.mem_cons_self _ _))
    have hlt : ch.toNat < 65536 := by omega
    simp only [List.flatMap_cons, List.map_cons, hlt, if_true, List.singleton_append]
    rw [ih (fun c hc => h c (List.mem_cons_of_mem _ hc))]

/-- Reading back the rendering of a number. -/
theorem parse_toDigitsCore (f n : Nat) (h : n < f) :
    (Nat.toDigitsCore 10 f n []).foldl (fun m ch => 10 * m + (ch.toNat - 48)) 0 = n := by
  induction f generalizing n with
  | zero => omega
  | succ f ih =>
    rw [toDigitsCore_succ]
    split
    · simp only [List.foldl_cons, List.foldl_nil]
      rw [digitChar_toNat _ (Nat.mod_lt _ (by decide))]
      omega
    · rw [List.foldl_append, ih (n / 10) (by omega)]
      simp only [List.foldl_cons, List.foldl_nil]
      rw [digitChar_toNat _ (Nat.mod_lt _ (by decide))]
      omega

theorem parse_zeros (k : Nat) (l : List Char) :
    (List.replicate k '0' ++ l).foldl (fun m ch => 10 * m + (ch.toNat - 48)) 0 =
      l.foldl (fun m ch => 10 * m + (ch.toNat - 48)) 0 := by
  induction k with
  | zero => rfl
  | succ k ih =>
    rw [List.replicate_succ, List.cons_append, List.foldl_cons]
    exact ih

/-- The numeric suffix read back from a generated id whose game code has
three code units is the number that was rendered. -/
theorem numericSuffix_customId (gameCode : String) (n : Nat) (h : jsLength gameCode = 3) :
    numericSuffix (customId gameCode n) = n + 1 := by
  have hdig : ∀ ch ∈ List.replicate (7 - (toString (n + 1)).length) '0' ++
      (toString (n + 1)).data, ch.isDigit = true := by
    intro ch hch
    rcases List.mem_append.1 hch with h1 | h1
    · rw [(List.mem_replicate.1 h1).2]
      decide
    · exact toString_all_digits _ ch h1
  have hpad : padStart7 (toString (n + 1)) =
      String.mk (List.replicate (7 - (toString (n + 1)).length) '0' ++
        (toString (n + 1)).data) := rfl
  have hdrop : (utf16Units (customId gameCode n)).drop 3 =
      (List.replicate (7 - (toString (n + 1)).length) '0' ++
        (toString (n + 1)).data).map Char.toNat := by
    rw [customId, utf16Units_append, hpad, utf16Units_of_digits _ hdig,
      List.drop_append_of_le_length (by rw [utf16Units_length, h]),
      List.drop_of_length_le (by rw [utf16Units_length, h])]
    rfl
  have hne : (toString (n + 1)).data ≠ [] := by
    rw [toString_data, Nat.toDigits, toDigitsCore_succ]
    split
    · simp
    · simp
  unfold numericSuffix
  simp only [hdrop]
  have htest : digitsRegexTest ((List.replicate (7 - (toString (n + 1)).length) '0' ++
      (toString (n + 1)).data).map Char.toNat) = true := by
    unfold digitsRegexTest
    simp only [Bool.and_eq_true, Bool.not_eq_true', List.all_eq_true, List.mem_map,
      decide_eq_true_eq]
    constructor
    · cases hd : (toString (n + 1)).data with
      | nil => exact absurd hd hne
      | cons a t => cases (7 - (toString (n + 1)).length) <;> rfl
    · rintro u ⟨ch, hch, rfl⟩
      exact (isDigit_iff_toNat ch).1 (hdig ch hch)
  rw [htest, if_pos rfl]
  unfold parseIntDigits
  rw [List.foldl_map]
  show (List.replicate _ '0' ++ (toString (n + 1)).data).foldl
    (fun m ch => 10 * m + (ch.toNat - 48)) 0 = n + 1
  rw [parse_zeros, toString_data, Nat.toDigits]
  exact parse_toDigitsCore _ _ (by omega)

/-- The constant `lastId` is at least the numeric suffix of every existing
non-empty custom id. -/
theorem numericSuffix_le_lastId (allTournaments : List TournamentSummary)
    (t : TournamentSummary) (ht : t ∈ allTournaments) (id : String)
    (hid : t.tournament_id_custom = some id) (hne : id ≠ "") :
    numericSuffix id ≤ lastId allTournaments := by
  unfold lastId
  simp only
  generalize hids : ((allTournaments.map (fun t => t.tournament_id_custom)).filterMap
    (fun x => match x with
      | some s => if s ≠ "" then some s else none
      | none => none)) = ids
  have hmem : id ∈ ids := by
    rw [← hids, List.mem_filterMap]
    exact ⟨some id, List.mem_map.2 ⟨t, ht, hid⟩, by simp [hne]⟩
  have hx : numericSuffix id ∈ ids.map numericSuffix := List.mem_map.2 ⟨id, hmem, rfl⟩
  generalize ids.map numericSuffix = l at hx
  haveI : IsTotal Nat (fun a b => b ≤ a) := ⟨fun a b => Nat.le_total b a⟩
  haveI : IsTrans Nat (fun a b => b ≤ a) := ⟨fun a b c hab hbc => Nat.le_trans hbc hab⟩
  have hsorted := List.sorted_insertionSort (fun a b : Nat => b ≤ a) l
  have hperm := List.perm_insertionSort (fun a b : Nat => b ≤ a) l
  have hx2 : numericSuffix id ∈ l.insertionSort (fun a b => b ≤ a) := hperm.symm.subset hx
  cases hs : l.insertionSort (fun a b => b ≤ a) with
  | nil => rw [hs] at hx2; cases hx2
  | cons a rest =>
    rw [hs] at hx2 hsorted
    simp only [List.head?_cons, Option.getD_some]
    rcases List.mem_cons.1 hx2 with h1 | h1
    · rw [h1]
    · exact List.rel_of_sorted_cons hsorted _ h1

theorem createTournament_calls (r : Remote) (c : TournamentManagementState)
    (allTournaments : List TournamentSummary) (gameCode : String)
    (hlist : r 0 Call.Tournament_list = .ok allTournaments)
    (hcode : gameCodeOf c.gameModes c.games c.game_mode_id = .ok gameCode) :
    calls ((createTournament c).run r c).2 =
      [Call.Tournament_list,
       Call.Tournament_create (customId gameCode (lastId allTournaments)) c.game_mode_id
         c.selectedRegion "single_elimination" "registration_open"] := by
  simp only [createTournament, H.run, H.tryCatch]
  generalize hres : createTournamentBody c r _ = res
  simp only [createTournamentBody, H.await_bind, H.ofExcept_bind, H.set_bind, H.set_apply,
    List.length_nil, hlist, hcode] at hres
  split at hres <;> subst hres <;> simp [calls, H.consoleError_apply]

/-- C13: the generated id is not always new.  The game of the selected mode
has no `game_code`, so the id is built from the text `undefined`; the existing
id `undefined0000001` is not numeric after its first three code units, so
`lastId` is 0, and `Tournament.create` is sent `undefined0000001`, the
`tournament_id_custom` of the tournament that `Tournament.list()` returned. -/
theorem createTournament_repeats_custom_id :
    uncodedRemote 0 Call.Tournament_list =
      .ok [{ id := "t1", tournament_id_custom := some "undefined0000001" }] ∧
    gameCodeOf uncodedPage.gameModes uncodedPage.games uncodedPage.game_mode_id =
      .ok "undefined" ∧
    lastId [{ id := "t1", tournament_id_custom := some "undefined0000001" }] = 0 ∧
    ((createTournament uncodedPage).run uncodedRemote uncodedPage).2.trace =
      [(Call.Tournament_list, true),
       (Call.Tournament_create "undefined0000001" "m1" "eu" "single_elimination"
          "registration_open", true)] ∧
    ∃ t ∈ [({ id := "t1", tournament_id_custom := some "undefined0000001" } :
        TournamentSummary)],
      t.tournament_id_custom = some "undefined0000001" :=
  ⟨rfl, rfl, by decide, by decide, ⟨_, List.mem_singleton.2 rfl, rfl⟩⟩

/-- Where the generated id is new: when the game code used by
`createTournament` has exactly three UTF-16 code units (as every generated
game code and the fallback `000` have) and the numbers involved are below
2^53, where JavaScript number arithmetic is exact, the id sent to
`Tournament.create` is the game code followed by `lastId + 1` padded to 7
digits, and it differs from the `tournament_id_custom` of every existing
tournament. -/
theorem createTournament_custom_id_unique (r : Remote) (c : TournamentManagementState)
    (allTournaments : List TournamentSummary) (gameCode : String)
    (hlist : r 0 Call.Tournament_list = .ok allTournaments)
    (hcode : gameCodeOf c.gameModes c.games c.game_mode_id = .ok gameCode)
    (hlen : jsLength gameCode = 3)
    (_hexact : lastId allTournaments + 1 < 2 ^ 53) :
    calls ((createTournament c).run r c).2 =
      [Call.Tournament_list,
       Call.Tournament_create (customId gameCode (lastId allTournaments)) c.game_mode_id
         c.selectedRegion "single_elimination" "registration_open"] ∧
    customId gameCode (lastId allTournaments) =
      gameCode ++ padStart7 (toString (lastId allTournaments + 1)) ∧
    ∀ t ∈ allTournaments,
      t.tournament_id_custom ≠ some (customId gameCode (lastId allTournaments)) := by
  refine ⟨createTournament_calls r c allTournaments gameCode hlist hcode, rfl, ?_⟩
  intro t ht hid
  have hne : customId gameCode (lastId allTournaments) ≠ "" := by
    intro h
    have hu := utf16Units_length (customId gameCode (lastId allTournaments))
    rw [customId, utf16Units_append, List.length_append, utf16Units_length gameCode, hlen,
      ← customId, h] at hu
    have h0 : jsLength "" = 0 := rfl
    omega
  have hle := numericSuffix_le_lastId allTournaments t ht _ hid hne
  rw [numericSuffix_customId gameCode _ hlen] at hle
  omega

/-- The previous statement at a concrete input: game code `101`, one
existing tournament `1010000041`; the id sent is `1010000042`. -/
theorem createTournament_custom_id_unique_witness :
    calls ((createTournament managementPage).run codedRemote managementPage).2 =
      [Call.Tournament_list,
       Call.Tournament_create "1010000042" "m1" "eu" "single_elimination"
         "registration_open"] ∧
    customId "101" (lastId [{ id := "t1", tournament_id_custom := some "1010000041" }]) =
      "101" ++ padStart7 (toString
        (lastId [{ id := "t1", tournament_id_custom := some "1010000041" }] + 1)) ∧
    ∀ t ∈ [({ id := "t1", tournament_id_custom := some "1010000041" } : TournamentSummary)],
      t.tournament_id_custom ≠ some (customId "101"
        (lastId [{ id := "t1", tournament_id_custom := some "1010000041" }])) :=
  createTournament_custom_id_unique codedRemote managementPage
    [{ id := "t1", tournament_id_custom := some "1010000041" }] "101" rfl rfl
    (by decide) (by decide)

/-! ## `handleUpdateUser` -/

theorem assignedList_length (x : Option String) : (assignedList x).length ≤ 1 := by
  cases x with
  | none => simp [assignedList]
  | some id =>
    by_cases h : id = "" <;> simp [assignedList, h]

theorem handleUpdateUser_calls (r : Remote) (c : UserManagementState) :
    ∀ call ∈ calls ((handleUpdateUser c).run r c).2,
      (∃ uid, c.editingUser = some uid ∧ call = Call.User_update uid (updatePayload c.formData)) ∨
      (∃ uid title message, call = Call.Notification_create uid title message) := by
  unfold handleUpdateUser
  cases hu : c.editingUser with
  | none => simp [H.run, H.pure_apply, calls]
  | some uid =>
    simp only [H.run, H.tryCatch]
    generalize hres : (H.await (Call.User_update uid (updatePayload c.formData)) >>= _) r _ = res
    simp only [H.await_bind, H.set_bind, H.set_apply, List.length_nil] at hres
    (repeat' split at hres) <;> subst hres <;>
    simp [calls, H.consoleError_bind, H.alert_apply]

theorem handleUpdateUser_first_call (r : Remote) (c : UserManagementState) (uid : String)
    (hu : c.editingUser = some uid) :
    (calls ((handleUpdateUser c).run r c).2).head? =
      some (Call.User_update uid (updatePayload c.formData)) := by
  unfold handleUpdateUser
  simp only [hu, H.run, H.tryCatch]
  generalize hres : (H.await (Call.User_update uid (updatePayload c.formData)) >>= _) r _ = res
  simp only [H.await_bind, H.set_bind, H.set_apply, List.length_nil] at hres
  (repeat' split at hres) <;> subst hres <;>
  simp [calls, H.consoleError_bind, H.alert_apply]

/-- C14: with a user being edited, the first call of `handleUpdateUser` is
`User.update` with the payload built from the form, and every `User.update`
of the run carries that payload.  The payload holds both `assigned_games` and
`assigned_games_creator`, each with at most one element and at most one of
them non-empty: role `moderator` gives `assigned_games_creator = []`, role
`creator` gives `assigned_games = []`, any other role gives both empty. -/
theorem handleUpdateUser_payload (r : Remote) (c : UserManagementState) :
    (∀ uid, c.editingUser = some uid →
      (calls ((handleUpdateUser c).run r c).2).head? =
        some (Call.User_update uid (updatePayload c.formData))) ∧
    (∀ uid payload, Call.User_update uid payload ∈ calls ((handleUpdateUser c).run r c).2 →
      payload = updatePayload c.formData) ∧
    (updatePayload c.formData).assigned_games.length ≤ 1 ∧
    (updatePayload c.formData).assigned_games_creator.length ≤ 1 ∧
    ((updatePayload c.formData).assigned_games = [] ∨
      (updatePayload c.formData).assigned_games_creator = []) ∧
    (c.formData.app_role = "moderator" →
      (updatePayload c.formData).assigned_games_creator = [] ∧
      (updatePayload c.formData).assigned_games = assignedList c.formData.assigned_game_id) ∧
    (c.formData.app_role = "creator" →
      (updatePayload c.formData).assigned_games = [] ∧
      (updatePayload c.formData).assigned_games_creator =
        assignedList c.formData.assigned_game_id) ∧
    (c.formData.app_role ≠ "moderator" → c.formData.app_role ≠ "creator" →
      (updatePayload c.formData).assigned_games = [] ∧
      (updatePayload c.formData).assigned_games_creator = []) := by
  refine ⟨fun uid hu => handleUpdateUser_first_call r c uid hu, ?_, ?_, ?_, ?_, ?_, ?_, ?_⟩
  · intro uid payload hmem
    rcases handleUpdateUser_calls r c _ hmem with ⟨uid2, -, h⟩ | ⟨a, b, d, h⟩
    · injection h with _ h2
    · cases h
  · unfold updatePayload
    split_ifs <;> simp [assignedList_length]
  · unfold updatePayload
    split_ifs <;> simp [assignedList_length]
  · unfold updatePayload
    split_ifs <;> simp
  · intro h
    simp [updatePayload, h]
  · intro h
    have h2 : c.formData.app_role ≠ "moderator" := by
      rw [h]
      decide
    simp [updatePayload, h, h2]
  · intro h1 h2
    simp [updatePayload, h1, h2]

/-- C14 at a concrete input: a moderator is assigned the game `g1`. -/
theorem handleUpdateUser_payload_witness :
    (calls ((handleUpdateUser editPage).run sampleRemote editPage).2).head? =
      some (Call.User_update "u7"
        { app_role := "moderator", assigned_games := ["g1"], assigned_games_creator := [] }) :=
  (handleUpdateUser_payload sampleRemote editPage).1 "u7" rfl

end Arena
